import Mathlib

/-!
# ags-sprite3d: matrix helpers and plugin event handling

A shallow embedding of `OGLHelper.cpp` (matrix construction and multiplication,
shader program creation) and of the run-time part of `ags_sprite3d.cpp`
(backend selection, save/restore, the per-frame event handler), followed by
theorems about them.

Conventions of the embedding:

* `float` entries are taken as exact numbers of an arbitrary type `α`; the
  operations the code uses (`+`, `*`, unary `-`, the literals `0.0`, `1.0`) are
  the corresponding operations of `α`. Where infinities and NaN matter, `α` is
  `XFloat`, which adds the IEEE 754 special values to exact finite numbers.
* A procedure writing through a pointer becomes a function from the previous
  contents of the pointee to the new contents.
* Calls into the host engine or the GL driver become entries of an effect log.
-/

namespace Sprite3D

/-! ## Matrix (declared in `OGLHelper.h`) -/

/-- Modelled from the spec: the `Matrix` type of `OGLHelper.h`, which is not among the
sources. The code uses three views of the same sixteen floats: the named fields
`_11 … _44`, the two-dimensional array `m[4][4]` and the flat array `marr[16]`.
The spec describes it as 16 scalars arranged as 4 rows × 4 columns, row-major, so
`m[i][j]` is the field `_(i+1)(j+1)` and `marr[4*i+j]` is `m[i][j]`. -/
structure Matrix (α : Type) where
  _11 : α
  _12 : α
  _13 : α
  _14 : α
  _21 : α
  _22 : α
  _23 : α
  _24 : α
  _31 : α
  _32 : α
  _33 : α
  _34 : α
  _41 : α
  _42 : α
  _43 : α
  _44 : α
deriving DecidableEq, Repr

variable {α : Type}

/-- Read access `M.m[i][j]`. -/
def Matrix.m (M : Matrix α) (i j : Fin 4) : α :=
  match i, j with
  | 0, 0 => M._11
  | 0, 1 => M._12
  | 0, 2 => M._13
  | 0, 3 => M._14
  | 1, 0 => M._21
  | 1, 1 => M._22
  | 1, 2 => M._23
  | 1, 3 => M._24
  | 2, 0 => M._31
  | 2, 1 => M._32
  | 2, 2 => M._33
  | 2, 3 => M._34
  | 3, 0 => M._41
  | 3, 1 => M._42
  | 3, 2 => M._43
  | 3, 3 => M._44

/-- Write access `M.m[i][j] = v`. -/
def Matrix.setM (M : Matrix α) (i j : Fin 4) (v : α) : Matrix α :=
  match i, j with
  | 0, 0 => { M with _11 := v }
  | 0, 1 => { M with _12 := v }
  | 0, 2 => { M with _13 := v }
  | 0, 3 => { M with _14 := v }
  | 1, 0 => { M with _21 := v }
  | 1, 1 => { M with _22 := v }
  | 1, 2 => { M with _23 := v }
  | 1, 3 => { M with _24 := v }
  | 2, 0 => { M with _31 := v }
  | 2, 1 => { M with _32 := v }
  | 2, 2 => { M with _33 := v }
  | 2, 3 => { M with _34 := v }
  | 3, 0 => { M with _41 := v }
  | 3, 1 => { M with _42 := v }
  | 3, 2 => { M with _43 := v }
  | 3, 3 => { M with _44 := v }

/-- The flat view `M.marr`, sixteen entries in row-major order. -/
def Matrix.marr (M : Matrix α) : List α :=
  [M._11, M._12, M._13, M._14, M._21, M._22, M._23, M._24,
   M._31, M._32, M._33, M._34, M._41, M._42, M._43, M._44]

/-- The call `memcpy(dst->marr, src.marr, sizeof(Matrix::marr))`: all sixteen entries of
`dst` are overwritten by those of `src`; nothing of `dst` survives. -/
def memcpy_marr (_dst : Matrix α) (src : Matrix α) : Matrix α :=
  match src.marr with
  | [a0, a1, a2, a3, a4, a5, a6, a7, a8, a9, a10, a11, a12, a13, a14, a15] =>
      ⟨a0, a1, a2, a3, a4, a5, a6, a7, a8, a9, a10, a11, a12, a13, a14, a15⟩
  | _ => src

/-! ## `OGLHelper.cpp`: matrix construction -/

/-- `SetMatrix(matrix, tx, ty, sx, sy)`: the sixteen assignments, in source order, applied
to the previous contents of `*matrix`. -/
def SetMatrix [Zero α] [One α] (matrix : Matrix α) (tx ty sx sy : α) : Matrix α :=
  let matrix := { matrix with _11 := sx }
  let matrix := { matrix with _12 := 0 }
  let matrix := { matrix with _13 := 0 }
  let matrix := { matrix with _14 := 0 }
  let matrix := { matrix with _21 := 0 }
  let matrix := { matrix with _22 := sy }
  let matrix := { matrix with _23 := 0 }
  let matrix := { matrix with _24 := 0 }
  let matrix := { matrix with _31 := 0 }
  let matrix := { matrix with _32 := 0 }
  let matrix := { matrix with _33 := 1 }
  let matrix := { matrix with _34 := 0 }
  let matrix := { matrix with _41 := tx }
  let matrix := { matrix with _42 := ty }
  let matrix := { matrix with _43 := 0 }
  let matrix := { matrix with _44 := 1 }
  matrix

/-- `SetMatrixIdentity(matrix)`. -/
def SetMatrixIdentity [Zero α] [One α] (matrix : Matrix α) : Matrix α :=
  let matrix := { matrix with _11 := 1 }
  let matrix := { matrix with _12 := 0 }
  let matrix := { matrix with _13 := 0 }
  let matrix := { matrix with _14 := 0 }
  let matrix := { matrix with _21 := 0 }
  let matrix := { matrix with _22 := 1 }
  let matrix := { matrix with _23 := 0 }
  let matrix := { matrix with _24 := 0 }
  let matrix := { matrix with _31 := 0 }
  let matrix := { matrix with _32 := 0 }
  let matrix := { matrix with _33 := 1 }
  let matrix := { matrix with _34 := 0 }
  let matrix := { matrix with _41 := 0 }
  let matrix := { matrix with _42 := 0 }
  let matrix := { matrix with _43 := 0 }
  let matrix := { matrix with _44 := 1 }
  matrix

/-- `SetMatrixRotation(matrix, radians)`. The library functions `std::sinf` and
`std::cosf` are parameters; the theorems instantiate them with `Real.sin` and
`Real.cos`. -/
def SetMatrixRotation [Zero α] [One α] [Neg α] (sinf cosf : α → α)
    (matrix : Matrix α) (radians : α) : Matrix α :=
  let sin := sinf radians
  let cos := cosf radians
  let matrix := { matrix with _11 := cos }
  let matrix := { matrix with _12 := -sin }
  let matrix := { matrix with _13 := 0 }
  let matrix := { matrix with _14 := 0 }
  let matrix := { matrix with _21 := sin }
  let matrix := { matrix with _22 := cos }
  let matrix := { matrix with _23 := 0 }
  let matrix := { matrix with _24 := 0 }
  let matrix := { matrix with _31 := 0 }
  let matrix := { matrix with _32 := 0 }
  let matrix := { matrix with _33 := 1 }
  let matrix := { matrix with _34 := 0 }
  let matrix := { matrix with _41 := 0 }
  let matrix := { matrix with _42 := 0 }
  let matrix := { matrix with _43 := 0 }
  let matrix := { matrix with _44 := 1 }
  matrix

/-! ## `OGLHelper.cpp`: matrix multiplication -/

/-- The double loop of `MatrixMultiply`: `for j in 0..3, for i in 0..3` assign
`temp.m[i][j]`. The local `temp` is declared without an initialiser, so its starting
contents are an argument. -/
def MatrixMultiply.loop [Add α] [Mul α] (temp a b : Matrix α) : Matrix α :=
  (List.finRange 4).foldl
    (fun temp j =>
      (List.finRange 4).foldl
        (fun temp i =>
          temp.setM i j
            (a.m 0 j * b.m i 0 +
             a.m 1 j * b.m i 1 +
             a.m 2 j * b.m i 2 +
             a.m 3 j * b.m i 3))
        temp)
    temp

/-- `MatrixMultiply(result, a, b)`, returning the new contents of `*result`.
`result` is the previous contents of `*result` and `temp` the indeterminate
starting contents of the local; `a` and `b` are the operand values at entry (both
are only read, and `*result` is only written by the final `memcpy`). -/
def MatrixMultiply [Add α] [Mul α] (temp result a b : Matrix α) : Matrix α :=
  let temp := MatrixMultiply.loop temp a b
  memcpy_marr result temp

/-! ## Applying a transform to a point -/

/-- A homogeneous point `(x, y, z, w)`. -/
structure Vec4 (α : Type) where
  x : α
  y : α
  z : α
  w : α
deriving DecidableEq, Repr

/-- The spec's "row vector times M": component `j` of the image is
`v.x * M[0][j] + v.y * M[1][j] + v.z * M[2][j] + v.w * M[3][j]`. The source has no
such function (the product is formed on the GPU); this is the convention the spec
states for applying a transform to a point. -/
def applyRow [Add α] [Mul α] (v : Vec4 α) (M : Matrix α) : Vec4 α :=
  { x := v.x * M.m 0 0 + v.y * M.m 1 0 + v.z * M.m 2 0 + v.w * M.m 3 0
    y := v.x * M.m 0 1 + v.y * M.m 1 1 + v.z * M.m 2 1 + v.w * M.m 3 1
    z := v.x * M.m 0 2 + v.y * M.m 1 2 + v.z * M.m 2 2 + v.w * M.m 3 2
    w := v.x * M.m 0 3 + v.y * M.m 1 3 + v.z * M.m 2 3 + v.w * M.m 3 3 }

/-- The column-vector reading "M times column vector": component `i` of the image is
`M[i][0] * v.x + M[i][1] * v.y + M[i][2] * v.z + M[i][3] * v.w`. Used only to show
that a statement about `applyRow` does not hinge on the choice of convention. -/
def applyCol [Add α] [Mul α] (M : Matrix α) (v : Vec4 α) : Vec4 α :=
  { x := M.m 0 0 * v.x + M.m 0 1 * v.y + M.m 0 2 * v.z + M.m 0 3 * v.w
    y := M.m 1 0 * v.x + M.m 1 1 * v.y + M.m 1 2 * v.z + M.m 1 3 * v.w
    z := M.m 2 0 * v.x + M.m 2 1 * v.y + M.m 2 2 * v.z + M.m 2 3 * v.w
    w := M.m 3 0 * v.x + M.m 3 1 * v.y + M.m 3 2 * v.z + M.m 3 3 * v.w }

/-- A matrix all of whose entries are `v`: a concrete stand-in for the contents of
storage that has not been written yet. -/
def Matrix.fill (v : α) : Matrix α :=
  ⟨v, v, v, v, v, v, v, v, v, v, v, v, v, v, v, v⟩

/-! ## `ags_sprite3d.cpp`: run-time state -/

/-- Modelled from the spec: `BaseObject::RenderStage` of `BaseObject.h`, which is not among
the sources: an enumerated value, one of the four stages. -/
inductive RenderStage where
  | STAGE_BACKGROUND
  | STAGE_SCENE
  | STAGE_GUI
  | STAGE_SCREEN
deriving DecidableEq, Repr

/-- Modelled from the spec: `BaseObject` of `BaseObject.h`, which is not among the sources.
The code of `ags_sprite3d.cpp` modelled here uses an object through its address (`key`)
and through `GetRenderStage()`; the stage of an object is fixed. -/
structure BaseObject where
  key : Nat
  renderStage : RenderStage
deriving DecidableEq, Repr

/-- `obj->GetRenderStage()`. -/
def BaseObject.GetRenderStage (obj : BaseObject) : RenderStage := obj.renderStage

/-- The two concrete backends `CreateFactory` can allocate. -/
inductive RenderFactory where
  | D3D9Factory
  | OGLFactory
deriving DecidableEq, Repr

/-- Modelled from the spec: the event codes `AGSE_*` of the host's plugin header, which is
not among the sources. `AGS_EngineOnEvent` compares `ev` with seven of them; every other
code is `other`. -/
inductive Event where
  | AGSE_SAVEGAME
  | AGSE_RESTOREGAME
  | AGSE_PRERENDER
  | AGSE_PRESCREENDRAW
  | AGSE_PREGUIDRAW
  | AGSE_POSTSCREENDRAW
  | AGSE_FINALSCREENDRAW
  | other (code : Int)
deriving DecidableEq, Repr

/-- Modelled from the spec: the `Screen` structure of `Common.h`, which is not among the
sources; the fields are those `ags_sprite3d.cpp` touches. `frameDelay` is a `float`, held
as the number whose 32 bits are its object representation; `gameSpeed` is an `int`. -/
structure Screen where
  frameDelay : Nat
  gameSpeed : Int
  width : Int
  height : Int
  bpp : Int
  viewport : Int × Int
deriving DecidableEq, Repr

/-- Calls that leave the plugin, in the order they are made. -/
inductive Effect where
  | AbortGame (msg : String)
  | InitGfxMode (backend : RenderFactory) (data : Int)
  | InitGfxDevice (backend : RenderFactory) (data : Int)
  | SetScreenMatrixes (backend : RenderFactory) (hostMatrixes : Bool)
  | UpdateAll
  | RenderAll (stage : RenderStage)
  | ObjectRender (obj : BaseObject)
deriving DecidableEq, Repr

/-- The host engine as seen through the `engine` pointer: its interface version, the
values it reports, and the byte streams behind its file handles (`FWrite` appends at the
end of a stream, `FRead` consumes from its front). -/
structure Engine where
  version : Int
  screenWidth : Int
  screenHeight : Int
  screenBpp : Int
  roomToViewport : Int × Int → Int × Int
  file : Int → List Nat

/-- The globals of `ags_sprite3d.cpp`: `engine`, `screen`, `factory`,
`manualRenderBatch`, together with the log of outgoing calls. -/
structure Plugin where
  engine : Engine
  screen : Screen
  factory : Option RenderFactory
  manualRenderBatch : List BaseObject
  log : List Effect

/-! ## Object representations and the host's file calls -/

/-- The value of `sizeof(float)`. -/
def sizeof_float : Nat := 4

/-- The value of `sizeof(int)`. -/
def sizeof_int : Nat := 4

/-- The `n` bytes of the object representation of the unsigned value `v`, least
significant byte first. -/
def toBytes : Nat → Nat → List Nat
  | 0, _ => []
  | n + 1, v => v % 256 :: toBytes n (v / 256)

/-- The unsigned value whose object representation is the given bytes. -/
def ofBytes : List Nat → Nat
  | [] => 0
  | b :: bs => b + 256 * ofBytes bs

/-- The 32-bit two's complement pattern of an `int`. -/
def intBits (x : Int) : Nat := (x % 2 ^ 32).toNat

/-- The `int` denoted by a 32-bit two's complement pattern. -/
def bitsInt (b : Nat) : Int := if b < 2 ^ 31 then (b : Int) else (b : Int) - 2 ^ 32

/-- `engine->FWrite(buffer, size, handle)`: the bytes of the buffer are appended to the
stream of `handle`. -/
def FWrite (e : Engine) (buffer : List Nat) (handle : Int) : Engine :=
  { e with file := Function.update e.file handle (e.file handle ++ buffer) }

/-- `engine->FRead(buffer, size, handle)`: up to `size` bytes are taken from the front of
the stream and overwrite the leading bytes of the buffer; when the stream is shorter
the rest of the buffer keeps its contents. Returns the engine and the buffer. -/
def FRead (e : Engine) (buffer : List Nat) (size : Nat) (handle : Int) : Engine × List Nat :=
  let got := (e.file handle).take size
  ({ e with file := Function.update e.file handle ((e.file handle).drop size) },
   got ++ buffer.drop got.length)

/-! ## `ags_sprite3d.cpp`: backend selection -/

/-- `tolower` of the C library in the "C" locale, on character codes. -/
def tolower (c : Nat) : Nat := if 65 ≤ c ∧ c ≤ 90 then c + 32 else c

/-- The character codes of a string literal, without the terminating NUL. -/
def cstr (s : String) : List Nat := s.toList.map Char.toNat

/-- `stricmp(a, b)` of the C library: the strings are compared character by character
after `tolower`; the result is the difference of the first pair that differs, the
terminating NUL (code 0) standing in for a string that has ended. The lists hold the
character codes before the terminator. -/
def stricmp : List Nat → List Nat → Int
  | [], [] => 0
  | [], c :: _ => (0 : Int) - (tolower c : Int)
  | c :: _, [] => (tolower c : Int) - 0
  | c :: cs, d :: ds =>
      if tolower c = tolower d then stricmp cs ds
      else (tolower c : Int) - (tolower d : Int)

/-- Equality of two strings ignoring letter case, as the spec words it. -/
def eqIgnoreCase (a b : List Nat) : Prop := a.map tolower = b.map tolower

instance (a b : List Nat) : Decidable (eqIgnoreCase a b) := by
  unfold eqIgnoreCase; infer_instance

/-- `CreateFactory(driverid)`: returns the new state of the globals and the returned
pointer (`none` for `nullptr`). -/
def CreateFactory (p : Plugin) (driverid : List Nat) : Plugin × Option RenderFactory :=
  if stricmp driverid (cstr "d3d9") = 0 then
    let p := { p with factory := some RenderFactory.D3D9Factory }
    (p, p.factory)
  else if stricmp driverid (cstr "ogl") = 0 then
    let p := { p with factory := some RenderFactory.OGLFactory }
    (p, p.factory)
  else
    (p, none)

/-- `GetFactory()`. -/
def GetFactory (p : Plugin) : Option RenderFactory := p.factory

/-- The text of the abort message built in `AGS_EngineInitGfx`. -/
def initGfxMessage (driverID : List Nat) : String :=
  let msg := "Unable to initialize plugin: graphics renderer not supported ("
  let msg := msg ++ String.mk (driverID.map Char.ofNat)
  let msg := msg ++ ")."
  msg

/-- `AGS_EngineInitGfx(driverID, data)`. `GetFactory()->InitGfxMode(&screen, data)` is a
call into the backend, logged; what the backend writes into `screen` is not modelled.
The null dereference when `GetFactory()` is null cannot happen here, `CreateFactory`
having just set it, and yields `none`. -/
def AGS_EngineInitGfx (p : Plugin) (driverID : List Nat) (data : Int) : Option Plugin :=
  let (p, created) := CreateFactory p driverID
  if created.isNone then
    let msg := initGfxMessage driverID
    some { p with log := p.log ++ [Effect.AbortGame msg] }
  else
    match GetFactory p with
    | none => none
    | some f => some { p with log := p.log ++ [Effect.InitGfxMode f data] }

/-! ## `ags_sprite3d.cpp`: script functions, save and restore -/

/-- `D3D_SetGameSpeed(speed)`. The float division `1.f / speed` is the parameter
`recip`, which gives the bits of the quotient. -/
def D3D_SetGameSpeed (recip : Int → Nat) (p : Plugin) (speed : Int) : Plugin :=
  let p := { p with screen := { p.screen with gameSpeed := speed } }
  let p := { p with screen := { p.screen with frameDelay := recip speed } }
  p

/-- `D3DObject_Render(obj)`: `manualRenderBatch.push_back(obj)`. -/
def D3DObject_Render (p : Plugin) (obj : BaseObject) : Plugin :=
  { p with manualRenderBatch := p.manualRenderBatch ++ [obj] }

/-- `Save(handle)`. -/
def Save (p : Plugin) (handle : Int) : Plugin :=
  let p := { p with engine := FWrite p.engine (toBytes sizeof_float p.screen.frameDelay) handle }
  let p := { p with engine := FWrite p.engine (toBytes sizeof_int (intBits p.screen.gameSpeed)) handle }
  p

/-- `Restore(handle)`. -/
def Restore (p : Plugin) (handle : Int) : Plugin :=
  let r := FRead p.engine (toBytes sizeof_float p.screen.frameDelay) sizeof_float handle
  let p := { p with engine := r.1, screen := { p.screen with frameDelay := ofBytes r.2 } }
  let r := FRead p.engine (toBytes sizeof_int (intBits p.screen.gameSpeed)) sizeof_int handle
  let p := { p with engine := r.1, screen := { p.screen with gameSpeed := bitsInt (ofBytes r.2) } }
  p

/-! ## `ags_sprite3d.cpp`: rendering and the event handler -/

/-- The loop of `Render` over `manualRenderBatch`: every queued object whose stage is
`stage` has `Render()` called, in list order. -/
def Render.batchLoop (stage : RenderStage) (batch : List BaseObject) (log : List Effect) :
    List Effect :=
  batch.foldl
    (fun log i => if i.GetRenderStage = stage then log ++ [Effect.ObjectRender i] else log)
    log

/-- `Render(stage)`. `GetFactory()->…` with a null `factory` is a null dereference: the
result is `none`. `BaseObject::RenderAll`, `BaseObject::Render` and the backend's
`SetScreenMatrixes` are not among the sources; calls to them are logged. -/
def Render (p : Plugin) (stage : RenderStage) : Option Plugin :=
  let p := { p with screen := { p.screen with
    width := p.engine.screenWidth, height := p.engine.screenHeight, bpp := p.engine.screenBpp } }
  match GetFactory p with
  | none => none
  | some f =>
    let p :=
      if p.engine.version ≥ 25 then
        { p with log := p.log ++ [Effect.SetScreenMatrixes f true] }
      else
        { p with log := p.log ++ [Effect.SetScreenMatrixes f false] }
    let p := { p with log := p.log ++ [Effect.RenderAll stage] }
    some { p with log := Render.batchLoop stage p.manualRenderBatch p.log }

/-- `AGS_EngineOnEvent(ev, data)`; the returned `int` is always 0 and is left out.
`engine->IsGamePaused()` is queried and its answer ignored. -/
def AGS_EngineOnEvent (p : Plugin) (ev : Event) (data : Int) : Option Plugin :=
  match ev with
  | Event.AGSE_SAVEGAME => some (Save p data)
  | Event.AGSE_RESTOREGAME => some (Restore p data)
  | Event.AGSE_PRERENDER => some { p with log := p.log ++ [Effect.UpdateAll] }
  | Event.AGSE_PRESCREENDRAW =>
    let p := { p with screen := { p.screen with viewport := (0, p.screen.viewport.2) } }
    let p := { p with screen := { p.screen with viewport := (p.screen.viewport.1, 0) } }
    let p :=
      if p.engine.version < 25 then
        { p with screen := { p.screen with viewport := p.engine.roomToViewport p.screen.viewport } }
      else p
    match GetFactory p with
    | none => none
    | some f =>
      let p := { p with log := p.log ++ [Effect.InitGfxDevice f data] }
      Render p RenderStage.STAGE_BACKGROUND
  | Event.AGSE_PREGUIDRAW => Render p RenderStage.STAGE_SCENE
  | Event.AGSE_POSTSCREENDRAW => Render p RenderStage.STAGE_GUI
  | Event.AGSE_FINALSCREENDRAW =>
    match Render p RenderStage.STAGE_SCREEN with
    | none => none
    | some p => some { p with manualRenderBatch := [] }
  | Event.other _ => some p

/-- The manual-batch `Render()` calls recorded in a stretch of the log. -/
def batchRenders : List Effect → List BaseObject
  | [] => []
  | Effect.ObjectRender obj :: rest => obj :: batchRenders rest
  | _ :: rest => batchRenders rest

/-- The state of the globals when the library is loaded: `screen` is a zero-initialised
static, `factory` is `nullptr`, `manualRenderBatch` is empty, nothing has been called. -/
def Plugin.startup (e : Engine) : Plugin :=
  { engine := e
    screen := { frameDelay := 0, gameSpeed := 0, width := 0, height := 0, bpp := 0,
                viewport := (0, 0) }
    factory := none
    manualRenderBatch := []
    log := [] }

/-- A host engine of the given interface version with no open streams, reporting a
320x200x32 screen and an unscrolled room. -/
def Engine.plain (version : Int) : Engine :=
  { version := version
    screenWidth := 320
    screenHeight := 200
    screenBpp := 32
    roomToViewport := fun xy => xy
    file := fun _ => [] }

/-- The globals after a successful `AGS_EngineInitGfx("ogl", …)` on a version 25 host,
with nothing logged yet. -/
def Plugin.ready : Plugin :=
  { Plugin.startup (Engine.plain 25) with factory := some RenderFactory.OGLFactory }

/-- An object assigned to the Scene stage. -/
def objectA : BaseObject := { key := 1, renderStage := RenderStage.STAGE_SCENE }

/-- An object assigned to the Gui stage. -/
def objectB : BaseObject := { key := 2, renderStage := RenderStage.STAGE_GUI }

/-! ## `OGLHelper.cpp`: shader programs -/

/-- The part of the GL context `CreateShaderProgram` acts on. Shader and program
objects share one name space; `next` is the next unused name. A shader deleted while
attached to a program is only flagged, and goes away when it is detached. -/
structure GLState where
  next : Nat
  shaders : List Nat
  programs : List Nat
  attached : List (Nat × Nat)
  flagged : List Nat
deriving DecidableEq, Repr

/-- An empty GL context, whose first object name is 1. -/
def GLState.empty : GLState :=
  { next := 1, shaders := [], programs := [], attached := [], flagged := [] }

/-- Every name in use is below `next`: the names `glCreateShader` and `glCreateProgram`
hand out are fresh. -/
def GLState.wf (gl : GLState) : Prop :=
  (∀ s ∈ gl.shaders, s < gl.next) ∧ (∀ q ∈ gl.programs, q < gl.next) ∧
  (∀ ps ∈ gl.attached, ps.1 < gl.next ∧ ps.2 < gl.next) ∧ (∀ s ∈ gl.flagged, s < gl.next)

instance (gl : GLState) : Decidable gl.wf := by
  unfold GLState.wf; infer_instance

/-- `glCreateShader(type)`: a new shader object with a fresh name. -/
def glCreateShader (gl : GLState) : GLState × Nat :=
  ({ gl with next := gl.next + 1, shaders := gl.shaders ++ [gl.next] }, gl.next)

/-- `glCreateProgram()`: a new program object with a fresh name. -/
def glCreateProgram (gl : GLState) : GLState × Nat :=
  ({ gl with next := gl.next + 1, programs := gl.programs ++ [gl.next] }, gl.next)

/-- `glAttachShader(program, shader)`. -/
def glAttachShader (gl : GLState) (program shader : Nat) : GLState :=
  { gl with attached := gl.attached ++ [(program, shader)] }

/-- `glDetachShader(program, shader)`: the attachment is removed; a shader flagged for
deletion that is attached to no other program is deleted. -/
def glDetachShader (gl : GLState) (program shader : Nat) : GLState :=
  let gl := { gl with attached := gl.attached.erase (program, shader) }
  if shader ∈ gl.flagged ∧ gl.attached.all (fun ps => ps.2 ≠ shader) then
    { gl with shaders := gl.shaders.erase shader, flagged := gl.flagged.erase shader }
  else gl

/-- `glDeleteShader(shader)`: an attached shader is flagged for deletion, any other is
deleted at once. -/
def glDeleteShader (gl : GLState) (shader : Nat) : GLState :=
  if gl.attached.any (fun ps => ps.2 = shader) then
    { gl with flagged := gl.flagged ++ [shader] }
  else
    { gl with shaders := gl.shaders.erase shader }

/-- `glDeleteProgram(program)` for a program that is not in use: its shaders are
detached and the program object is deleted. -/
def glDeleteProgram (gl : GLState) (program : Nat) : GLState :=
  let own := (gl.attached.filter (fun ps => ps.1 = program)).map (fun ps => ps.2)
  let gl := own.foldl (fun gl shader => glDetachShader gl program shader) gl
  { gl with programs := gl.programs.erase program }

/-- The `ShaderProgram` record: the name of the linked program, 0 when there is none. -/
structure ShaderProgram where
  Program : Nat
deriving DecidableEq, Repr

/-- `CreateShaderProgram(prg, name, vertex_shader_src, fragment_shader_src)`. The verdicts
of the driver read back through `GL_COMPILE_STATUS` and `GL_LINK_STATUS` are the three
boolean parameters; `OutputShaderError` only writes to the debug log and is left out.
Returns the GL context, the contents of `prg` and the returned `bool`. -/
def CreateShaderProgram (vertex_compiles fragment_compiles links : Bool)
    (gl : GLState) (prg : ShaderProgram) : GLState × ShaderProgram × Bool :=
  let (gl, vertex_shader) := glCreateShader gl
  if vertex_compiles = false then
    (gl, prg, false)
  else
    let (gl, fragment_shader) := glCreateShader gl
    if fragment_compiles = false then
      let gl := glDeleteShader gl fragment_shader
      (gl, prg, false)
    else
      let (gl, program) := glCreateProgram gl
      let gl := glAttachShader gl program vertex_shader
      let gl := glAttachShader gl program fragment_shader
      if links = false then
        let gl := glDeleteProgram gl program
        let gl := glDeleteShader gl fragment_shader
        (gl, prg, false)
      else
        let gl := glDetachShader gl program vertex_shader
        let gl := glDeleteShader gl vertex_shader
        let gl := glDetachShader gl program fragment_shader
        let gl := glDeleteShader gl fragment_shader
        let prg := { prg with Program := program }
        (gl, prg, true)

/-! ## Matrices in storage, the product formula, composed transforms -/

/-- Matrix storage: the matrix held at each address. Two pointers alias exactly when
they are the same address. -/
abbrev Heap (α : Type) := Nat → Matrix α

/-- One pass of the inner loop body of `MatrixMultiply` on the machine state: the
storage and the local `temp`. The operands are read through the pointers `a` and `b`
from the storage as it is at that moment; only `temp` is written. -/
def MatrixMultiplyAt.body [Add α] [Mul α] (a b : Nat) (j i : Fin 4)
    (st : Heap α × Matrix α) : Heap α × Matrix α :=
  (st.1,
   st.2.setM i j
     ((st.1 a).m 0 j * (st.1 b).m i 0 +
      (st.1 a).m 1 j * (st.1 b).m i 1 +
      (st.1 a).m 2 j * (st.1 b).m i 2 +
      (st.1 a).m 3 j * (st.1 b).m i 3))

/-- `MatrixMultiply(result, a, b)` on storage, with `result`, `a`, `b` addresses that may
coincide: the double loop fills the local `temp`, then the `memcpy` overwrites the
matrix at `result`. Returns the storage after the call. -/
def MatrixMultiplyAt [Add α] [Mul α] (temp : Matrix α) (heap : Heap α)
    (result a b : Nat) : Heap α :=
  let st :=
    (List.finRange 4).foldl
      (fun st j => (List.finRange 4).foldl (fun st i => MatrixMultiplyAt.body a b j i st) st)
      (heap, temp)
  Function.update st.1 result (memcpy_marr (st.1 result) st.2)

/-- The matrix with entry `f i j` at `m[i][j]`. -/
def Matrix.ofFn (f : Fin 4 → Fin 4 → α) : Matrix α :=
  ⟨f 0 0, f 0 1, f 0 2, f 0 3, f 1 0, f 1 1, f 1 2, f 1 3,
   f 2 0, f 2 1, f 2 2, f 2 3, f 3 0, f 3 1, f 3 2, f 3 3⟩

/-- The product formula in the spec's words, as a pure function of two matrix values:
`result[i][j] = Σ_k a[k][j] * b[i][k]`. -/
def Multiply_spec [Semiring α] (a b : Matrix α) : Matrix α :=
  Matrix.ofFn (fun i j => ∑ k : Fin 4, a.m k j * b.m i k)

/-- A matrix is affine when its last column `(_14, _24, _34, _44)` is `(0, 0, 0, 1)`. -/
def Matrix.affine [Zero α] [One α] (M : Matrix α) : Prop :=
  M._14 = 0 ∧ M._24 = 0 ∧ M._34 = 0 ∧ M._44 = 1

instance [Zero α] [One α] [DecidableEq α] (M : Matrix α) : Decidable M.affine := by
  unfold Matrix.affine; infer_instance

/-- A transform composed from the three constructors by any number of
multiplications. -/
inductive TransformExpr (α : Type) where
  | setMatrix (tx ty sx sy : α)
  | identity
  | rotation (radians : α)
  | multiply (a b : TransformExpr α)

/-- The matrix a composed transform denotes: every constructor and every product is
the source function; `scratch` is what each piece of storage held before it was
written. -/
def TransformExpr.eval [Zero α] [One α] [Neg α] [Add α] [Mul α] (sinf cosf : α → α)
    (scratch : Matrix α) : TransformExpr α → Matrix α
  | TransformExpr.setMatrix tx ty sx sy => SetMatrix scratch tx ty sx sy
  | TransformExpr.identity => SetMatrixIdentity scratch
  | TransformExpr.rotation radians => SetMatrixRotation sinf cosf scratch radians
  | TransformExpr.multiply a b =>
      MatrixMultiply scratch scratch (a.eval sinf cosf scratch) (b.eval sinf cosf scratch)

/-- The stages of the `RenderAll` calls recorded in a stretch of the log, in order. -/
def renderAllStages : List Effect → List RenderStage
  | [] => []
  | Effect.RenderAll stage :: rest => stage :: renderAllStages rest
  | _ :: rest => renderAllStages rest

/-! ## The special values of `float` arithmetic -/

/-- The values of a `float` as far as infinities and NaN are concerned: a finite value,
held as an exact rational (rounding and overflow are not modelled), or one of the
IEEE 754 special values. Signed zeros are not distinguished. -/
inductive XFloat where
  | fin (q : ℚ)
  | pinf
  | ninf
  | nan
deriving DecidableEq

/-- IEEE 754 addition on these values: NaN is absorbing, opposite infinities add to
NaN, an infinity absorbs every finite value. -/
def XFloat.add : XFloat → XFloat → XFloat
  | XFloat.nan, _ => XFloat.nan
  | _, XFloat.nan => XFloat.nan
  | XFloat.fin a, XFloat.fin b => XFloat.fin (a + b)
  | XFloat.pinf, XFloat.ninf => XFloat.nan
  | XFloat.ninf, XFloat.pinf => XFloat.nan
  | XFloat.pinf, _ => XFloat.pinf
  | _, XFloat.pinf => XFloat.pinf
  | XFloat.ninf, _ => XFloat.ninf
  | _, XFloat.ninf => XFloat.ninf

/-- The product of an infinity of the given sign with a finite value: NaN for zero,
otherwise the infinity whose sign is the product of the signs. -/
def XFloat.scaleInf (positive : Bool) (q : ℚ) : XFloat :=
  if q = 0 then XFloat.nan
  else if (0 < q) = positive then XFloat.pinf
  else XFloat.ninf

/-- IEEE 754 multiplication on these values: NaN is absorbing and zero times an
infinity is NaN. -/
def XFloat.mul : XFloat → XFloat → XFloat
  | XFloat.nan, _ => XFloat.nan
  | _, XFloat.nan => XFloat.nan
  | XFloat.fin a, XFloat.fin b => XFloat.fin (a * b)
  | XFloat.fin a, XFloat.pinf => XFloat.scaleInf true a
  | XFloat.fin a, XFloat.ninf => XFloat.scaleInf false a
  | XFloat.pinf, XFloat.fin b => XFloat.scaleInf true b
  | XFloat.ninf, XFloat.fin b => XFloat.scaleInf false b
  | XFloat.pinf, XFloat.pinf => XFloat.pinf
  | XFloat.ninf, XFloat.ninf => XFloat.pinf
  | XFloat.pinf, XFloat.ninf => XFloat.ninf
  | XFloat.ninf, XFloat.pinf => XFloat.ninf

/-- IEEE 754 negation on these values. -/
def XFloat.neg : XFloat → XFloat
  | XFloat.fin a => XFloat.fin (-a)
  | XFloat.pinf => XFloat.ninf
  | XFloat.ninf => XFloat.pinf
  | XFloat.nan => XFloat.nan

instance : Zero XFloat := ⟨XFloat.fin 0⟩

instance : One XFloat := ⟨XFloat.fin 1⟩

instance : Add XFloat := ⟨XFloat.add⟩

instance : Mul XFloat := ⟨XFloat.mul⟩

instance : Neg XFloat := ⟨XFloat.neg⟩

/-! ## Theorems: matrix library -/

/-- The closed form of the loop: every entry of `temp` is overwritten. -/
theorem MatrixMultiply_entries [Add α] [Mul α] (temp result a b : Matrix α) :
    MatrixMultiply temp result a b =
      { _11 := a._11 * b._11 + a._21 * b._12 + a._31 * b._13 + a._41 * b._14
        _12 := a._12 * b._11 + a._22 * b._12 + a._32 * b._13 + a._42 * b._14
        _13 := a._13 * b._11 + a._23 * b._12 + a._33 * b._13 + a._43 * b._14
        _14 := a._14 * b._11 + a._24 * b._12 + a._34 * b._13 + a._44 * b._14
        _21 := a._11 * b._21 + a._21 * b._22 + a._31 * b._23 + a._41 * b._24
        _22 := a._12 * b._21 + a._22 * b._22 + a._32 * b._23 + a._42 * b._24
        _23 := a._13 * b._21 + a._23 * b._22 + a._33 * b._23 + a._43 * b._24
        _24 := a._14 * b._21 + a._24 * b._22 + a._34 * b._23 + a._44 * b._24
        _31 := a._11 * b._31 + a._21 * b._32 + a._31 * b._33 + a._41 * b._34
        _32 := a._12 * b._31 + a._22 * b._32 + a._32 * b._33 + a._42 * b._34
        _33 := a._13 * b._31 + a._23 * b._32 + a._33 * b._33 + a._43 * b._34
        _34 := a._14 * b._31 + a._24 * b._32 + a._34 * b._33 + a._44 * b._34
        _41 := a._11 * b._41 + a._21 * b._42 + a._31 * b._43 + a._41 * b._44
        _42 := a._12 * b._41 + a._22 * b._42 + a._32 * b._43 + a._42 * b._44
        _43 := a._13 * b._41 + a._23 * b._42 + a._33 * b._43 + a._43 * b._44
        _44 := a._14 * b._41 + a._24 * b._42 + a._34 * b._43 + a._44 * b._44 } := by
  rfl

/-- C1: for all matrices `a`, `b` (and whatever `temp` and `*result` held before), and
all `i j` in `0..3`, `MatrixMultiply(result, a, b)` stores
`result[i][j] = a[0][j]*b[i][0] + a[1][j]*b[i][1] + a[2][j]*b[i][2] + a[3][j]*b[i][3]`,
which is the sum over `k` of `a[k][j] * b[i][k]`. -/
theorem C1_MatrixMultiply_index_convention [Semiring α] (temp result a b : Matrix α)
    (i j : Fin 4) (temp0 result0 : Matrix ℤ) :
    (MatrixMultiply temp result a b).m i j =
        a.m 0 j * b.m i 0 + a.m 1 j * b.m i 1 + a.m 2 j * b.m i 2 + a.m 3 j * b.m i 3 ∧
    (MatrixMultiply temp result a b).m i j = ∑ k : Fin 4, a.m k j * b.m i k ∧
    (∃ a0 b0 : Matrix ℤ,
      (MatrixMultiply temp0 result0 a0 b0).m 0 1 ≠ ∑ k : Fin 4, a0.m 0 k * b0.m k 1) := by
  have h : (MatrixMultiply temp result a b).m i j =
      a.m 0 j * b.m i 0 + a.m 1 j * b.m i 1 + a.m 2 j * b.m i 2 + a.m 3 j * b.m i 3 := by
    rw [MatrixMultiply_entries]
    fin_cases i <;> fin_cases j <;> rfl
  refine ⟨h, ?_, ?_⟩
  · rw [h, Fin.sum_univ_four]
  · refine ⟨SetMatrixRotation (fun _ => 1) (fun _ => 0) (Matrix.fill 0) 0,
      SetMatrix (Matrix.fill 0) 5 7 2 3, ?_⟩
    rw [MatrixMultiply_entries, Fin.sum_univ_four]
    decide

/-- C2: with the matrix built by `SetMatrixIdentity` as first operand and `M` as second,
`MatrixMultiply` yields `M`; with `M` first and the identity second it also yields `M`.
Entries are exact numbers (any semiring). -/
theorem C2_MatrixMultiply_identity [Semiring α] (temp result prior M : Matrix α) :
    MatrixMultiply temp result (SetMatrixIdentity prior) M = M ∧
    MatrixMultiply temp result M (SetMatrixIdentity prior) = M := by
  constructor <;>
  · rw [MatrixMultiply_entries]
    cases M
    simp [SetMatrixIdentity]

/-- C4: for every real angle `θ`, `MatrixMultiply` of `SetMatrixRotation(θ)` and
`SetMatrixRotation(-θ)`, in either operand order, is the matrix built by
`SetMatrixIdentity` (with `sin` and `cos` the real functions). -/
theorem C4_rotation_inverse (θ : ℝ) (temp result p q r : Matrix ℝ) :
    MatrixMultiply temp result (SetMatrixRotation Real.sin Real.cos p θ)
        (SetMatrixRotation Real.sin Real.cos q (-θ)) = SetMatrixIdentity r ∧
    MatrixMultiply temp result (SetMatrixRotation Real.sin Real.cos p (-θ))
        (SetMatrixRotation Real.sin Real.cos q θ) = SetMatrixIdentity r := by
  have h1 : Real.cos θ * Real.cos θ + Real.sin θ * Real.sin θ = 1 := by
    have := Real.cos_sq_add_sin_sq θ
    nlinarith [this]
  have h2 : -(Real.sin θ * Real.cos θ) + Real.cos θ * Real.sin θ = 0 := by ring
  have h3 : Real.cos θ * Real.sin θ + -(Real.sin θ * Real.cos θ) = 0 := by ring
  have h4 : Real.sin θ * Real.sin θ + Real.cos θ * Real.cos θ = 1 := by
    rw [add_comm]; exact h1
  have h5 : -(Real.cos θ * Real.sin θ) + Real.sin θ * Real.cos θ = 0 := by ring
  have h6 : Real.sin θ * Real.cos θ + -(Real.cos θ * Real.sin θ) = 0 := by ring
  constructor <;>
  · rw [MatrixMultiply_entries]
    simp [SetMatrixRotation, SetMatrixIdentity, Real.sin_neg, Real.cos_neg, h1, h2, h3, h4, h5, h6]

/-- C5: `SetMatrixRotation(radians)` has upper-left block `_11 = cos`, `_12 = -sin`,
`_21 = sin`, `_22 = cos` and every other entry equal to the identity's; hence
`SetMatrixRotation(0)` is exactly the matrix of `SetMatrixIdentity`. -/
theorem C5_rotation_entries_and_zero (θ : ℝ) (p q : Matrix ℝ) :
    SetMatrixRotation Real.sin Real.cos p θ =
      { SetMatrixIdentity q with
        _11 := Real.cos θ, _12 := -Real.sin θ, _21 := Real.sin θ, _22 := Real.cos θ } ∧
    SetMatrixRotation Real.sin Real.cos p 0 = SetMatrixIdentity q := by
  constructor
  · rfl
  · simp [SetMatrixRotation, SetMatrixIdentity]

/-- C6 (amended): the composed transform
`MatrixMultiply(MatrixMultiply(SetMatrixRotation(0), SetMatrix(10,0,1,1)), SetMatrixRotation(π/2))`
has bottom row `(10, 0, 0, 1)`, so the row vector `(0,0,0,1)` (the child's anchor) is
mapped to `(10, 0)`: the parent's rotation, passed as the second operand, does not move
the anchor. -/
theorem C6_parenting_anchor_image (t1 r1 t2 r2 p0 p1 p2 : Matrix ℝ) :
    applyRow ⟨0, 0, 0, 1⟩
      (MatrixMultiply t1 r1
        (MatrixMultiply t2 r2
          (SetMatrixRotation Real.sin Real.cos p0 0)
          (SetMatrix p1 10 0 1 1))
        (SetMatrixRotation Real.sin Real.cos p2 (Real.pi / 2)))
      = ⟨10, 0, 0, 1⟩ := by
  rw [MatrixMultiply_entries, MatrixMultiply_entries]
  simp [applyRow, Matrix.m, SetMatrixRotation, SetMatrix]

/-- C6 (as stated, refuted): with every piece of scratch storage zero-filled, the
composed transform of the parenting example sends the anchor `(0,0,0,1)` to a point
with `x = 10` and `y = 0`, which is not `(0, 10, 0, 1)`; read as a column-vector
transform it sends the anchor to `(0, 0, 0, 1)`, which is not `(0, 10, 0, 1)`
either. -/
theorem C6_parenting_anchor_not_rotated :
    (applyRow ⟨0, 0, 0, 1⟩
      (MatrixMultiply (Matrix.fill 0) (Matrix.fill 0)
        (MatrixMultiply (Matrix.fill 0) (Matrix.fill 0)
          (SetMatrixRotation Real.sin Real.cos (Matrix.fill 0) 0)
          (SetMatrix (Matrix.fill 0) 10 0 1 1))
        (SetMatrixRotation Real.sin Real.cos (Matrix.fill 0) (Real.pi / 2)))).x = (10 : ℝ) ∧
    (applyRow ⟨0, 0, 0, 1⟩
      (MatrixMultiply (Matrix.fill 0) (Matrix.fill 0)
        (MatrixMultiply (Matrix.fill 0) (Matrix.fill 0)
          (SetMatrixRotation Real.sin Real.cos (Matrix.fill 0) 0)
          (SetMatrix (Matrix.fill 0) 10 0 1 1))
        (SetMatrixRotation Real.sin Real.cos (Matrix.fill 0) (Real.pi / 2)))).y = (0 : ℝ) ∧
    applyRow ⟨0, 0, 0, 1⟩
      (MatrixMultiply (Matrix.fill 0) (Matrix.fill 0)
        (MatrixMultiply (Matrix.fill 0) (Matrix.fill 0)
          (SetMatrixRotation Real.sin Real.cos (Matrix.fill 0) 0)
          (SetMatrix (Matrix.fill 0) 10 0 1 1))
        (SetMatrixRotation Real.sin Real.cos (Matrix.fill 0) (Real.pi / 2)))
      ≠ (⟨0, 10, 0, 1⟩ : Vec4 ℝ) ∧
    applyCol
      (MatrixMultiply (Matrix.fill 0) (Matrix.fill 0)
        (MatrixMultiply (Matrix.fill 0) (Matrix.fill 0)
          (SetMatrixRotation Real.sin Real.cos (Matrix.fill 0) 0)
          (SetMatrix (Matrix.fill 0) 10 0 1 1))
        (SetMatrixRotation Real.sin Real.cos (Matrix.fill 0) (Real.pi / 2)))
      ⟨0, 0, 0, 1⟩
      ≠ (⟨0, 10, 0, 1⟩ : Vec4 ℝ) := by
  rw [MatrixMultiply_entries, MatrixMultiply_entries]
  simp [applyRow, applyCol, Matrix.m, SetMatrixRotation, SetMatrix]

/-! ## Theorems: the manual render batch -/

theorem batchLoop_eq (stage : RenderStage) (batch : List BaseObject) (log : List Effect) :
    Render.batchLoop stage batch log =
      log ++ (batch.filter (fun o => o.renderStage = stage)).map Effect.ObjectRender := by
  simp only [Render.batchLoop, BaseObject.GetRenderStage]
  induction batch generalizing log with
  | nil => simp
  | cons o rest ih =>
    simp only [List.foldl_cons]
    by_cases h : o.renderStage = stage
    · simp [h, ih]
    · simp [h, ih]

theorem batchRenders_append (l1 l2 : List Effect) :
    batchRenders (l1 ++ l2) = batchRenders l1 ++ batchRenders l2 := by
  induction l1 with
  | nil => rfl
  | cons e rest ih => cases e <;> simp [batchRenders, ih]

theorem batchRenders_map (l : List BaseObject) :
    batchRenders (l.map Effect.ObjectRender) = l := by
  induction l with
  | nil => rfl
  | cons o rest ih => simp [batchRenders, ih]

theorem foldl_D3DObject_Render (q : List BaseObject) (p : Plugin) :
    q.foldl D3DObject_Render p = { p with manualRenderBatch := p.manualRenderBatch ++ q } := by
  induction q generalizing p with
  | nil => simp
  | cons o rest ih => simp [ih, D3DObject_Render]

theorem count_stage_filters (q : List BaseObject) (o : BaseObject) :
    (q.filter (fun x => x.renderStage = RenderStage.STAGE_BACKGROUND) ++
      q.filter (fun x => x.renderStage = RenderStage.STAGE_SCENE) ++
      q.filter (fun x => x.renderStage = RenderStage.STAGE_GUI) ++
      q.filter (fun x => x.renderStage = RenderStage.STAGE_SCREEN)).count o = q.count o := by
  induction q with
  | nil => simp
  | cons x rest ih =>
    simp only [List.count_append] at ih ⊢
    rcases x with ⟨k, s⟩
    cases s <;> simp [List.filter_cons, List.count_cons] <;> omega

/-- The log a call of `Render(stage)` appends when the backend is `f`. -/
theorem Render_eq (p : Plugin) (f : RenderFactory) (stage : RenderStage)
    (hf : p.factory = some f) :
    ∃ p2 : Plugin, Render p stage = some p2 ∧
      p2.factory = some f ∧ p2.manualRenderBatch = p.manualRenderBatch ∧
      p2.engine = p.engine ∧
      p2.log = p.log ++
        [Effect.SetScreenMatrixes f (decide (p.engine.version ≥ 25)), Effect.RenderAll stage] ++
        (p.manualRenderBatch.filter (fun o => o.renderStage = stage)).map Effect.ObjectRender := by
  by_cases hv : p.engine.version ≥ 25
  · refine ⟨_, by simp only [Render, GetFactory, hf, hv, if_true]; rfl, ?_, ?_, ?_, ?_⟩ <;>
      simp [batchLoop_eq, hv]
  · refine ⟨_, by simp only [Render, GetFactory, hf, hv, if_false]; rfl, ?_, ?_, ?_, ?_⟩ <;>
      simp [batchLoop_eq, hv]

/-- The effects of a stage: matrices refreshed, `RenderAll`, then the batch dispatch. -/
theorem stage_event_eq (p : Plugin) (f : RenderFactory) (ev : Event) (stage : RenderStage)
    (d : Int) (hf : p.factory = some f)
    (hev : (ev = Event.AGSE_PREGUIDRAW ∧ stage = RenderStage.STAGE_SCENE) ∨
           (ev = Event.AGSE_POSTSCREENDRAW ∧ stage = RenderStage.STAGE_GUI)) :
    ∃ p2 : Plugin, AGS_EngineOnEvent p ev d = some p2 ∧
      p2.factory = some f ∧ p2.manualRenderBatch = p.manualRenderBatch ∧
      p2.engine = p.engine ∧
      p2.log = p.log ++
        [Effect.SetScreenMatrixes f (decide (p.engine.version ≥ 25)), Effect.RenderAll stage] ++
        (p.manualRenderBatch.filter (fun o => o.renderStage = stage)).map Effect.ObjectRender := by
  obtain ⟨p2, h1, h2, h3, h4, h5⟩ := Render_eq p f stage hf
  rcases hev with ⟨rfl, rfl⟩ | ⟨rfl, rfl⟩ <;> exact ⟨p2, h1, h2, h3, h4, h5⟩

/-- The effects of `AGSE_PRESCREENDRAW`: device refreshed, then stage Background. -/
theorem prescreendraw_event_eq (p : Plugin) (f : RenderFactory) (d : Int)
    (hf : p.factory = some f) :
    ∃ p2 : Plugin, AGS_EngineOnEvent p Event.AGSE_PRESCREENDRAW d = some p2 ∧
      p2.factory = some f ∧ p2.manualRenderBatch = p.manualRenderBatch ∧
      p2.engine = p.engine ∧
      p2.log = p.log ++
        [Effect.InitGfxDevice f d, Effect.SetScreenMatrixes f (decide (p.engine.version ≥ 25)),
          Effect.RenderAll RenderStage.STAGE_BACKGROUND] ++
        (p.manualRenderBatch.filter
          (fun o => o.renderStage = RenderStage.STAGE_BACKGROUND)).map Effect.ObjectRender := by
  by_cases hv : p.engine.version < 25
  · obtain ⟨p2, h1, h2, h3, h4, h5⟩ := Render_eq
      { p with
        screen := { p.screen with viewport := p.engine.roomToViewport (0, 0) }
        log := p.log ++ [Effect.InitGfxDevice f d] } f RenderStage.STAGE_BACKGROUND hf
    refine ⟨p2, ?_, h2, h3, h4, ?_⟩
    · rw [hf] at h1
      simp only [AGS_EngineOnEvent, GetFactory, hf, hv, if_true]
      exact h1
    · rw [h5]; simp
  · obtain ⟨p2, h1, h2, h3, h4, h5⟩ := Render_eq
      { p with
        screen := { p.screen with viewport := (0, 0) }
        log := p.log ++ [Effect.InitGfxDevice f d] } f RenderStage.STAGE_BACKGROUND hf
    refine ⟨p2, ?_, h2, h3, h4, ?_⟩
    · rw [hf] at h1
      simp only [AGS_EngineOnEvent, GetFactory, hf, hv, if_false]
      exact h1
    · rw [h5]; simp

/-- The effects of `AGSE_FINALSCREENDRAW`: stage Screen, then the batch is cleared. -/
theorem finalscreendraw_event_eq (p : Plugin) (f : RenderFactory) (d : Int)
    (hf : p.factory = some f) :
    ∃ p2 : Plugin, AGS_EngineOnEvent p Event.AGSE_FINALSCREENDRAW d = some p2 ∧
      p2.factory = some f ∧ p2.manualRenderBatch = [] ∧
      p2.engine = p.engine ∧
      p2.log = p.log ++
        [Effect.SetScreenMatrixes f (decide (p.engine.version ≥ 25)),
          Effect.RenderAll RenderStage.STAGE_SCREEN] ++
        (p.manualRenderBatch.filter
          (fun o => o.renderStage = RenderStage.STAGE_SCREEN)).map Effect.ObjectRender := by
  obtain ⟨p2, h1, h2, _, h4, h5⟩ := Render_eq p f RenderStage.STAGE_SCREEN hf
  refine ⟨{ p2 with manualRenderBatch := [] }, ?_, h2, rfl, h4, h5⟩
  simp only [AGS_EngineOnEvent, h1]

/-- C7: starting from an empty batch and an initialised backend, queue the objects `q`
with `D3DObject_Render` and handle `AGSE_PRESCREENDRAW`, `AGSE_PREGUIDRAW`,
`AGSE_POSTSCREENDRAW`, `AGSE_FINALSCREENDRAW` in that order. Every event succeeds; the
batch `Render()` calls logged during the event of a stage are exactly the queued objects
of that stage, in queue order; over the frame every object is rendered from the batch as
often as it was queued; the batch equals `q` after each of the first three events and is
empty after the last, with the backend still set, so the same holds for the next frame. -/
theorem C7_manual_batch_full_frame (p : Plugin) (f : RenderFactory) (q : List BaseObject)
    (d1 d2 d3 d4 : Int) (hf : p.factory = some f) (hb : p.manualRenderBatch = []) :
    ∃ pA pB pC pD : Plugin,
      AGS_EngineOnEvent (q.foldl D3DObject_Render p) Event.AGSE_PRESCREENDRAW d1 = some pA ∧
      AGS_EngineOnEvent pA Event.AGSE_PREGUIDRAW d2 = some pB ∧
      AGS_EngineOnEvent pB Event.AGSE_POSTSCREENDRAW d3 = some pC ∧
      AGS_EngineOnEvent pC Event.AGSE_FINALSCREENDRAW d4 = some pD ∧
      (∃ lA lB lC lD : List Effect,
        pA.log = p.log ++ lA ∧ pB.log = pA.log ++ lB ∧
        pC.log = pB.log ++ lC ∧ pD.log = pC.log ++ lD ∧
        batchRenders lA = q.filter (fun o => o.renderStage = RenderStage.STAGE_BACKGROUND) ∧
        batchRenders lB = q.filter (fun o => o.renderStage = RenderStage.STAGE_SCENE) ∧
        batchRenders lC = q.filter (fun o => o.renderStage = RenderStage.STAGE_GUI) ∧
        batchRenders lD = q.filter (fun o => o.renderStage = RenderStage.STAGE_SCREEN) ∧
        ∀ o : BaseObject, (batchRenders (lA ++ lB ++ lC ++ lD)).count o = q.count o) ∧
      pA.manualRenderBatch = q ∧ pB.manualRenderBatch = q ∧ pC.manualRenderBatch = q ∧
      pD.manualRenderBatch = [] ∧ pD.factory = some f := by
  have hq : (q.foldl D3DObject_Render p).manualRenderBatch = q := by
    rw [foldl_D3DObject_Render, hb]; rfl
  have hl : (q.foldl D3DObject_Render p).log = p.log := by
    rw [foldl_D3DObject_Render]
  have hf0 : (q.foldl D3DObject_Render p).factory = some f := by
    rw [foldl_D3DObject_Render]; exact hf
  obtain ⟨pA, eA, fA, bA, gA, lA⟩ := prescreendraw_event_eq _ f d1 hf0
  obtain ⟨pB, eB, fB, bB, gB, lB⟩ :=
    stage_event_eq pA f Event.AGSE_PREGUIDRAW RenderStage.STAGE_SCENE d2 fA (Or.inl ⟨rfl, rfl⟩)
  obtain ⟨pC, eC, fC, bC, gC, lC⟩ :=
    stage_event_eq pB f Event.AGSE_POSTSCREENDRAW RenderStage.STAGE_GUI d3 fB (Or.inr ⟨rfl, rfl⟩)
  obtain ⟨pD, eD, fD, bD, _, lD⟩ := finalscreendraw_event_eq pC f d4 fC
  rw [hq] at bA
  rw [bA] at bB
  rw [bB] at bC
  rw [hq, hl] at lA
  rw [bA] at lB
  rw [bB] at lC
  rw [bC] at lD
  rw [List.append_assoc] at lA lB lC lD
  refine ⟨pA, pB, pC, pD, eA, eB, eC, eD, ⟨_, _, _, _, lA, lB, lC, lD, ?_, ?_, ?_, ?_, ?_⟩,
    bA, bB, bC, bD, fD⟩
  · simp [batchRenders_append, batchRenders_map, batchRenders]
  · simp [batchRenders_append, batchRenders_map, batchRenders]
  · simp [batchRenders_append, batchRenders_map, batchRenders]
  · simp [batchRenders_append, batchRenders_map, batchRenders]
  · intro o
    have hc := count_stage_filters q o
    simpa [batchRenders_append, batchRenders_map, batchRenders] using hc

/-- C7, the spec's scenario: A queued for Scene and B for Gui. Nothing is rendered from
the batch during the Background and Screen events, A during the Scene event, B during
the Gui event, and the batch is empty afterwards. -/
theorem C7_manual_batch_full_frame_witness :
    Plugin.ready.factory = some RenderFactory.OGLFactory ∧
    Plugin.ready.manualRenderBatch = [] ∧
    ∃ pA pB pC pD : Plugin,
      AGS_EngineOnEvent ([objectA, objectB].foldl D3DObject_Render Plugin.ready)
        Event.AGSE_PRESCREENDRAW 0 = some pA ∧
      AGS_EngineOnEvent pA Event.AGSE_PREGUIDRAW 0 = some pB ∧
      AGS_EngineOnEvent pB Event.AGSE_POSTSCREENDRAW 0 = some pC ∧
      AGS_EngineOnEvent pC Event.AGSE_FINALSCREENDRAW 0 = some pD ∧
      (∃ lA lB lC lD : List Effect,
        pA.log = Plugin.ready.log ++ lA ∧ pB.log = pA.log ++ lB ∧
        pC.log = pB.log ++ lC ∧ pD.log = pC.log ++ lD ∧
        batchRenders lA = [] ∧ batchRenders lB = [objectA] ∧
        batchRenders lC = [objectB] ∧ batchRenders lD = []) ∧
      pD.manualRenderBatch = [] := by
  refine ⟨rfl, rfl, ?_⟩
  obtain ⟨pA, pB, pC, pD, eA, eB, eC, eD, ⟨lA, lB, lC, lD, hA, hB, hC, hD, rA, rB, rC, rD, _⟩,
      _, _, _, bD, _⟩ :=
    C7_manual_batch_full_frame Plugin.ready RenderFactory.OGLFactory [objectA, objectB]
      0 0 0 0 rfl rfl
  exact ⟨pA, pB, pC, pD, eA, eB, eC, eD,
    ⟨lA, lB, lC, lD, hA, hB, hC, hD, rA.trans (by decide), rB.trans (by decide),
      rC.trans (by decide), rD.trans (by decide)⟩, bD⟩

/-! ## Theorems: save and restore -/

theorem toBytes_length (n v : Nat) : (toBytes n v).length = n := by
  induction n generalizing v with
  | zero => rfl
  | succ n ih => simp [toBytes, ih]

theorem ofBytes_toBytes (n v : Nat) : ofBytes (toBytes n v) = v % 256 ^ n := by
  induction n generalizing v with
  | zero => simp [toBytes, ofBytes, Nat.mod_one]
  | succ n ih =>
    simp only [toBytes, ofBytes, ih]
    rw [pow_succ, Nat.mul_comm (256 ^ n) 256, Nat.mod_mul, Nat.add_comm]

theorem bitsInt_intBits (x : Int) (h1 : -2 ^ 31 ≤ x) (h2 : x < 2 ^ 31) :
    bitsInt (intBits x) = x := by
  unfold bitsInt intBits
  have hpos : (0 : Int) ≤ x % 2 ^ 32 := Int.emod_nonneg _ (by norm_num)
  have hcast : (((x % 2 ^ 32).toNat : Nat) : Int) = x % 2 ^ 32 := Int.toNat_of_nonneg hpos
  by_cases hx : 0 ≤ x
  · have hm : x % 2 ^ 32 = x := Int.emod_eq_of_lt hx (by omega)
    have hlt : (x % 2 ^ 32).toNat < 2 ^ 31 := by omega
    rw [if_pos hlt, hcast, hm]
  · have hm : x % 2 ^ 32 = x + 2 ^ 32 := by
      have h3 : (x + 2 ^ 32) % 2 ^ 32 = x + 2 ^ 32 := Int.emod_eq_of_lt (by omega) (by omega)
      rw [← h3, Int.add_emod_self]
    have hge : ¬ (x % 2 ^ 32).toNat < 2 ^ 31 := by omega
    rw [if_neg hge, hcast, hm]
    omega

theorem FRead_exact (e : Engine) (buffer bytes rest : List Nat) (handle : Int)
    (hlen : buffer.length = bytes.length) (hfile : e.file handle = bytes ++ rest) :
    (FRead e buffer bytes.length handle).2 = bytes ∧
    (FRead e buffer bytes.length handle).1.file handle = rest ∧
    (FRead e buffer bytes.length handle).1.version = e.version := by
  simp [FRead, hfile, hlen]

/-- C8: `Save` appends to the stream exactly the `sizeof(float)` bytes of `frameDelay`
followed by the `sizeof(int)` bytes of `gameSpeed`, nothing else, and leaves `screen`
as it is; `Restore`, run in any state on a stream that starts with those bytes, leaves
`frameDelay` and `gameSpeed` equal to the saved values and the stream at the first
byte after them. The saved `frameDelay` is a 32-bit pattern and `gameSpeed` a 32-bit
`int`. -/
theorem C8_save_restore_roundtrip (p : Plugin) (h : Int)
    (hfd : p.screen.frameDelay < 2 ^ 32)
    (hgs : -2 ^ 31 ≤ p.screen.gameSpeed ∧ p.screen.gameSpeed < 2 ^ 31) :
    ∃ bytes : List Nat,
      (Save p h).engine.file h = p.engine.file h ++ bytes ∧
      bytes = toBytes sizeof_float p.screen.frameDelay ++
                toBytes sizeof_int (intBits p.screen.gameSpeed) ∧
      bytes.length = sizeof_float + sizeof_int ∧
      (Save p h).screen = p.screen ∧
      ∀ (fresh : Plugin) (hr : Int) (rest : List Nat),
        fresh.engine.file hr = bytes ++ rest →
          (Restore fresh hr).screen.frameDelay = p.screen.frameDelay ∧
          (Restore fresh hr).screen.gameSpeed = p.screen.gameSpeed ∧
          (Restore fresh hr).engine.file hr = rest := by
  refine ⟨_, ?_, rfl, ?_, rfl, ?_⟩
  · simp [Save, FWrite]
  · simp [toBytes_length]
  · intro fresh hr rest hfile
    have hbits : intBits p.screen.gameSpeed < 2 ^ 32 := by
      unfold intBits
      have := Int.emod_lt_of_pos p.screen.gameSpeed (show (0 : Int) < 2 ^ 32 by norm_num)
      have := Int.emod_nonneg p.screen.gameSpeed (show (2 ^ 32 : Int) ≠ 0 by norm_num)
      omega
    rw [List.append_assoc] at hfile
    obtain ⟨r1, r2, _⟩ := FRead_exact fresh.engine
      (toBytes sizeof_float fresh.screen.frameDelay)
      (toBytes sizeof_float p.screen.frameDelay) _ hr
      (by simp [toBytes_length]) hfile
    rw [toBytes_length] at r1 r2
    obtain ⟨s1, s2, _⟩ := FRead_exact
      (FRead fresh.engine (toBytes sizeof_float fresh.screen.frameDelay) sizeof_float hr).1
      (toBytes sizeof_int (intBits fresh.screen.gameSpeed))
      (toBytes sizeof_int (intBits p.screen.gameSpeed)) rest hr
      (by simp [toBytes_length]) r2
    rw [toBytes_length] at s1 s2
    refine ⟨?_, ?_, ?_⟩
    · show ofBytes (FRead fresh.engine _ sizeof_float hr).2 = _
      rw [r1, ofBytes_toBytes]
      exact Nat.mod_eq_of_lt (by simpa [sizeof_float] using hfd)
    · show bitsInt (ofBytes (FRead _ _ sizeof_int hr).2) = _
      rw [s1, ofBytes_toBytes, Nat.mod_eq_of_lt (by simpa [sizeof_int] using hbits)]
      exact bitsInt_intBits _ hgs.1 hgs.2
    · exact s2

/-- C8, the spec's scenario: `gameSpeed = 40` and `frameDelay = 1/40`, whose `float` bits
are `0x3CCCCCCD`, saved to an empty stream and restored into the start-up state. -/
theorem C8_save_restore_roundtrip_witness :
    (D3D_SetGameSpeed (fun _ => 0x3CCCCCCD) Plugin.ready 40).screen.frameDelay < 2 ^ 32 ∧
    (-2 ^ 31 ≤ (D3D_SetGameSpeed (fun _ => 0x3CCCCCCD) Plugin.ready 40).screen.gameSpeed ∧
      (D3D_SetGameSpeed (fun _ => 0x3CCCCCCD) Plugin.ready 40).screen.gameSpeed < 2 ^ 31) ∧
    (Save (D3D_SetGameSpeed (fun _ => 0x3CCCCCCD) Plugin.ready 40) 7).engine.file 7 =
      [0xCD, 0xCC, 0xCC, 0x3C, 40, 0, 0, 0] ∧
    (Restore { Plugin.startup (Engine.plain 25) with
        engine := (Save (D3D_SetGameSpeed (fun _ => 0x3CCCCCCD) Plugin.ready 40) 7).engine }
      7).screen.frameDelay = 0x3CCCCCCD ∧
    (Restore { Plugin.startup (Engine.plain 25) with
        engine := (Save (D3D_SetGameSpeed (fun _ => 0x3CCCCCCD) Plugin.ready 40) 7).engine }
      7).screen.gameSpeed = 40 ∧
    (Restore { Plugin.startup (Engine.plain 25) with
        engine := (Save (D3D_SetGameSpeed (fun _ => 0x3CCCCCCD) Plugin.ready 40) 7).engine }
      7).engine.file 7 = [] := by
  have hfd : (D3D_SetGameSpeed (fun _ => 0x3CCCCCCD) Plugin.ready 40).screen.frameDelay
      < 2 ^ 32 := by decide
  have hgs : -2 ^ 31 ≤ (D3D_SetGameSpeed (fun _ => 0x3CCCCCCD) Plugin.ready 40).screen.gameSpeed ∧
      (D3D_SetGameSpeed (fun _ => 0x3CCCCCCD) Plugin.ready 40).screen.gameSpeed < 2 ^ 31 := by
    decide
  obtain ⟨bytes, hsave, hbytes, _, _, hrestore⟩ :=
    C8_save_restore_roundtrip (D3D_SetGameSpeed (fun _ => 0x3CCCCCCD) Plugin.ready 40) 7 hfd hgs
  have hstream : (Save (D3D_SetGameSpeed (fun _ => 0x3CCCCCCD) Plugin.ready 40) 7).engine.file 7
      = bytes ++ [] := by
    rw [hsave, List.append_nil]; rfl
  obtain ⟨g1, g2, g3⟩ := hrestore
    { Plugin.startup (Engine.plain 25) with
      engine := (Save (D3D_SetGameSpeed (fun _ => 0x3CCCCCCD) Plugin.ready 40) 7).engine }
    7 [] hstream
  refine ⟨hfd, hgs, ?_, g1, g2, g3⟩
  rw [hstream, List.append_nil, hbytes]
  decide

/-! ## Theorems: backend selection -/

theorem tolower_ne_zero (c : Nat) (h : c ≠ 0) : tolower c ≠ 0 := by
  unfold tolower
  split <;> omega

/-- On strings without an embedded NUL, `stricmp` returns 0 exactly when the strings
are equal ignoring letter case. -/
theorem stricmp_eq_zero_iff (a b : List Nat) (ha : ∀ c ∈ a, c ≠ 0) (hb : ∀ c ∈ b, c ≠ 0) :
    stricmp a b = 0 ↔ eqIgnoreCase a b := by
  unfold eqIgnoreCase
  induction a generalizing b with
  | nil =>
    cases b with
    | nil => simp [stricmp]
    | cons d ds =>
      have hd := tolower_ne_zero d (hb d (List.mem_cons_self _ _))
      simp only [stricmp, List.map_nil, List.map_cons]
      constructor
      · intro h0; omega
      · intro h0; cases h0
  | cons c cs ih =>
    cases b with
    | nil =>
      have hc := tolower_ne_zero c (ha c (List.mem_cons_self _ _))
      simp only [stricmp, List.map_nil, List.map_cons]
      constructor
      · intro h0; omega
      · intro h0; cases h0
    | cons d ds =>
      have ih2 := ih ds (fun x hx => ha x (List.mem_cons_of_mem _ hx))
        (fun x hx => hb x (List.mem_cons_of_mem _ hx))
      simp only [stricmp, List.map_cons, List.cons.injEq]
      by_cases hcd : tolower c = tolower d
      · simp [hcd, ih2]
      · simp only [hcd, if_false, false_and, iff_false]
        omega

theorem cstr_d3d9 : cstr "d3d9" = [100, 51, 100, 57] := by decide

theorem cstr_ogl : cstr "ogl" = [111, 103, 108] := by decide

/-- C9: for a driver id without embedded NUL, `CreateFactory` returns a backend exactly
when the id equals "d3d9" or "ogl" ignoring letter case (the Direct3D backend for the
first, the OpenGL backend for the second), and `GetFactory()` then returns that
backend; for every other id it returns null and leaves the globals as they were, so
`GetFactory()` is still null if it was null, and `AGS_EngineInitGfx` logs `AbortGame`
and nothing else (no `InitGfxMode`). -/
theorem C9_backend_selection (p : Plugin) (driverid : List Nat) (data : Int)
    (hnul : ∀ c ∈ driverid, c ≠ 0) :
    ((CreateFactory p driverid).2.isSome ↔
      (eqIgnoreCase driverid (cstr "d3d9") ∨ eqIgnoreCase driverid (cstr "ogl"))) ∧
    (eqIgnoreCase driverid (cstr "d3d9") →
      (CreateFactory p driverid).2 = some RenderFactory.D3D9Factory) ∧
    (eqIgnoreCase driverid (cstr "ogl") →
      (CreateFactory p driverid).2 = some RenderFactory.OGLFactory) ∧
    (∀ f, (CreateFactory p driverid).2 = some f →
      GetFactory (CreateFactory p driverid).1 = some f ∧
      AGS_EngineInitGfx p driverid data =
        some { p with factory := some f, log := p.log ++ [Effect.InitGfxMode f data] }) ∧
    ((CreateFactory p driverid).2 = none →
      (CreateFactory p driverid).1 = p ∧
      (p.factory = none → GetFactory (CreateFactory p driverid).1 = none) ∧
      AGS_EngineInitGfx p driverid data =
        some { p with log := p.log ++ [Effect.AbortGame (initGfxMessage driverid)] }) := by
  have h1 := stricmp_eq_zero_iff driverid (cstr "d3d9") hnul (by decide)
  have h2 := stricmp_eq_zero_iff driverid (cstr "ogl") hnul (by decide)
  have hdisj : eqIgnoreCase driverid (cstr "d3d9") → ¬ eqIgnoreCase driverid (cstr "ogl") := by
    intro ha hb
    unfold eqIgnoreCase at ha hb
    rw [ha] at hb
    revert hb
    decide
  by_cases c1 : stricmp driverid (cstr "d3d9") = 0
  · have e1 := h1.mp c1
    have n2 := hdisj e1
    simp [CreateFactory, AGS_EngineInitGfx, GetFactory, c1, e1, n2]
  · have e1 : ¬ eqIgnoreCase driverid (cstr "d3d9") := fun h => c1 (h1.mpr h)
    by_cases c2 : stricmp driverid (cstr "ogl") = 0
    · have e2 := h2.mp c2
      simp [CreateFactory, AGS_EngineInitGfx, GetFactory, c1, c2, e1, e2]
    · have e2 : ¬ eqIgnoreCase driverid (cstr "ogl") := fun h => c2 (h2.mpr h)
      simp [CreateFactory, AGS_EngineInitGfx, GetFactory, c1, c2, e1, e2]

/-- C9 on two ids: "OGL" selects the OpenGL backend whatever the letter case, "sdl" is
refused, the global stays null and the game is aborted. -/
theorem C9_backend_selection_witness :
    (∀ c ∈ cstr "OGL", c ≠ 0) ∧
    (CreateFactory (Plugin.startup (Engine.plain 25)) (cstr "OGL")).2 =
      some RenderFactory.OGLFactory ∧
    (∀ c ∈ cstr "sdl", c ≠ 0) ∧
    GetFactory (CreateFactory (Plugin.startup (Engine.plain 25)) (cstr "sdl")).1 = none := by
  have hA : ∀ c ∈ cstr "OGL", c ≠ 0 := by decide
  have hB : ∀ c ∈ cstr "sdl", c ≠ 0 := by decide
  refine ⟨hA, ?_, hB, ?_⟩
  · exact (C9_backend_selection (Plugin.startup (Engine.plain 25)) (cstr "OGL") 0 hA).2.2.1
      (by decide)
  · have hnone : (CreateFactory (Plugin.startup (Engine.plain 25)) (cstr "sdl")).2 = none := by
      decide
    exact ((C9_backend_selection (Plugin.startup (Engine.plain 25)) (cstr "sdl") 0 hB).2.2.2.2
      hnone).2.1 rfl

/-! ## Theorems: shader program creation -/

/-- The link-failure branch: the program and the fragment shader are deleted, the
vertex shader stays. -/
theorem CreateShaderProgram_link_failure (gl : GLState) (prg : ShaderProgram) (hwf : gl.wf) :
    CreateShaderProgram true true false gl prg =
      ({ gl with next := gl.next + 3, shaders := gl.shaders ++ [gl.next] }, prg, false) := by
  obtain ⟨hS, hP, hA, hF⟩ := hwf
  have own : List.filter (fun ps : Nat × Nat => decide (ps.1 = gl.next + 1 + 1)) gl.attached
      = [] := by
    rw [List.filter_eq_nil_iff]
    intro ps hps
    have := (hA ps hps).1
    simp; omega
  have nv : gl.next ∉ gl.flagged := fun h => by have := hF _ h; omega
  have nf : gl.next + 1 ∉ gl.flagged := fun h => by have := hF _ h; omega
  have a1 : (gl.next + 1 + 1, gl.next) ∉ gl.attached :=
    fun h => by have := (hA _ h).1; dsimp only at this; omega
  have a2 : (gl.next + 1 + 1, gl.next + 1) ∉ gl.attached :=
    fun h => by have := (hA _ h).1; dsimp only at this; omega
  have np : gl.next + 1 + 1 ∉ gl.programs := fun h => by have := hP _ h; omega
  have ns : gl.next + 1 ∉ gl.shaders := fun h => by have := hS _ h; omega
  have hany : gl.attached.any (fun ps => decide (ps.2 = gl.next + 1)) = false := by
    rw [List.any_eq_false]
    intro ps hps
    have := (hA ps hps).2
    simp; omega
  simp [CreateShaderProgram, glCreateShader, glCreateProgram, glAttachShader, glDeleteProgram,
    glDetachShader, glDeleteShader, List.filter_append, own, nv, nf, a1, a2, np, ns, hany,
    List.erase_append_right, List.filter_cons]

/-- The success path: both shaders are detached and deleted, the program stays. -/
theorem CreateShaderProgram_success (gl : GLState) (prg : ShaderProgram) (hwf : gl.wf) :
    CreateShaderProgram true true true gl prg =
      ({ gl with next := gl.next + 3, programs := gl.programs ++ [gl.next + 2] },
        { prg with Program := gl.next + 2 }, true) := by
  obtain ⟨hS, hP, hA, hF⟩ := hwf
  have nv : gl.next ∉ gl.flagged := fun h => by have := hF _ h; omega
  have nf : gl.next + 1 ∉ gl.flagged := fun h => by have := hF _ h; omega
  have a1 : (gl.next + 1 + 1, gl.next) ∉ gl.attached :=
    fun h => by have := (hA _ h).1; dsimp only at this; omega
  have a2 : (gl.next + 1 + 1, gl.next + 1) ∉ gl.attached :=
    fun h => by have := (hA _ h).1; dsimp only at this; omega
  have ns : gl.next + 1 ∉ gl.shaders := fun h => by have := hS _ h; omega
  have ns0 : gl.next ∉ gl.shaders := fun h => by have := hS _ h; omega
  have hany : gl.attached.any (fun ps => decide (ps.2 = gl.next + 1)) = false := by
    rw [List.any_eq_false]
    intro ps hps
    have := (hA ps hps).2
    simp; omega
  have hany0 : gl.attached.any (fun ps => decide (ps.2 = gl.next)) = false := by
    rw [List.any_eq_false]
    intro ps hps
    have := (hA ps hps).2
    simp; omega
  simp [CreateShaderProgram, glCreateShader, glCreateProgram, glAttachShader,
    glDetachShader, glDeleteShader, nv, nf, a1, a2, ns, ns0, hany, hany0,
    List.erase_append_right]

/-- C10 (what the code does): in every GL context whose names in use are below `next`,
with both shaders compiling and the link failing, `CreateShaderProgram` returns `false`
having deleted the program and the fragment shader, while the vertex shader it created
(name `gl.next`) is still among the live shader objects. On the success path the same
call leaves no shader object of its own alive. -/
theorem C10_link_failure_leaves_vertex_shader (gl : GLState) (prg : ShaderProgram)
    (hwf : gl.wf) :
    CreateShaderProgram true true false gl prg =
      ({ gl with next := gl.next + 3, shaders := gl.shaders ++ [gl.next] }, prg, false) ∧
    gl.next ∉ gl.shaders ∧
    gl.next ∈ (CreateShaderProgram true true false gl prg).1.shaders ∧
    (CreateShaderProgram true true true gl prg).1.shaders = gl.shaders ∧
    (CreateShaderProgram true true true gl prg).2.2 = true := by
  have hfail := CreateShaderProgram_link_failure gl prg hwf
  have hok := CreateShaderProgram_success gl prg hwf
  refine ⟨hfail, ?_, ?_, ?_, ?_⟩
  · intro h
    have := hwf.1 _ h
    omega
  · rw [hfail]; simp
  · rw [hok]
  · rw [hok]

/-- C10 in the empty GL context: after the failed link the vertex shader, name 1, is the
one live shader object; the fragment shader 2 and the program 3 are gone. -/
theorem C10_link_failure_leaves_vertex_shader_witness :
    GLState.empty.wf ∧
    CreateShaderProgram true true false GLState.empty ⟨0⟩ =
      ({ next := 4, shaders := [1], programs := [], attached := [], flagged := [] },
        ⟨0⟩, false) :=
  ⟨by decide, (C10_link_failure_leaves_vertex_shader GLState.empty ⟨0⟩ (by decide)).1⟩

/-! ## Theorems: matrix invariants, aliasing, closure, associativity -/

/-- C11 (amended): every matrix built by `SetMatrix`, `SetMatrixIdentity` and
`SetMatrixRotation` has the entries `(_33, _34, _43, _44)` equal to `(1, 0, 0, 1)`:
the bottom-right block is that of the identity. -/
theorem C11_bottom_right_block [Zero α] [One α] [Neg α] (prior : Matrix α)
    (tx ty sx sy radians : α) (sinf cosf : α → α) :
    ((SetMatrix prior tx ty sx sy)._33, (SetMatrix prior tx ty sx sy)._34,
      (SetMatrix prior tx ty sx sy)._43, (SetMatrix prior tx ty sx sy)._44) = (1, 0, 0, 1) ∧
    ((SetMatrixIdentity prior)._33, (SetMatrixIdentity prior)._34,
      (SetMatrixIdentity prior)._43, (SetMatrixIdentity prior)._44) = (1, 0, 0, 1) ∧
    ((SetMatrixRotation sinf cosf prior radians)._33,
      (SetMatrixRotation sinf cosf prior radians)._34,
      (SetMatrixRotation sinf cosf prior radians)._43,
      (SetMatrixRotation sinf cosf prior radians)._44) = (1, 0, 0, 1) :=
  ⟨rfl, rfl, rfl⟩

/-- C11 (as stated, refuted): over the integers, the matrices built by
`SetMatrixIdentity`, by `SetMatrix(5, 7, 2, 3)` and by `SetMatrixRotation` have
`_33 = 1`, so their block `(_33, _34, _43, _44)` is not `(0, 0, 0, 1)`. -/
theorem C11_bottom_right_block_not_zero :
    ((SetMatrixIdentity (Matrix.fill (0 : ℤ)))._33, (SetMatrixIdentity (Matrix.fill (0 : ℤ)))._34,
      (SetMatrixIdentity (Matrix.fill (0 : ℤ)))._43, (SetMatrixIdentity (Matrix.fill (0 : ℤ)))._44)
      ≠ (0, 0, 0, 1) ∧
    ((SetMatrix (Matrix.fill (0 : ℤ)) 5 7 2 3)._33, (SetMatrix (Matrix.fill (0 : ℤ)) 5 7 2 3)._34,
      (SetMatrix (Matrix.fill (0 : ℤ)) 5 7 2 3)._43, (SetMatrix (Matrix.fill (0 : ℤ)) 5 7 2 3)._44)
      ≠ (0, 0, 0, 1) ∧
    ((SetMatrixRotation (fun _ => 0) (fun _ => 1) (Matrix.fill (0 : ℤ)) 0)._33,
      (SetMatrixRotation (fun _ => 0) (fun _ => 1) (Matrix.fill (0 : ℤ)) 0)._34,
      (SetMatrixRotation (fun _ => 0) (fun _ => 1) (Matrix.fill (0 : ℤ)) 0)._43,
      (SetMatrixRotation (fun _ => 0) (fun _ => 1) (Matrix.fill (0 : ℤ)) 0)._44)
      ≠ (0, 0, 0, 1) := by
  decide

/-- A run of the inner loop of `MatrixMultiplyAt` leaves storage alone and acts on
`temp` as the inner loop of `MatrixMultiply.loop` on the operands' values. -/
theorem MatrixMultiplyAt_inner [Add α] [Mul α] (a b : Nat) (j : Fin 4) (l : List (Fin 4))
    (heap : Heap α) (temp : Matrix α) :
    l.foldl (fun st i => MatrixMultiplyAt.body a b j i st) (heap, temp) =
      (heap,
       l.foldl
         (fun temp i =>
           temp.setM i j
             ((heap a).m 0 j * (heap b).m i 0 +
              (heap a).m 1 j * (heap b).m i 1 +
              (heap a).m 2 j * (heap b).m i 2 +
              (heap a).m 3 j * (heap b).m i 3))
         temp) := by
  induction l generalizing temp with
  | nil => rfl
  | cons i rest ih =>
    simp only [List.foldl_cons, MatrixMultiplyAt.body]
    exact ih _

/-- A run of the outer loop, likewise. -/
theorem MatrixMultiplyAt_outer [Add α] [Mul α] (a b : Nat) (l l2 : List (Fin 4))
    (heap : Heap α) (temp : Matrix α) :
    l.foldl
        (fun st j => l2.foldl (fun st i => MatrixMultiplyAt.body a b j i st) st)
        (heap, temp) =
      (heap,
       l.foldl
         (fun temp j =>
           l2.foldl
             (fun temp i =>
               temp.setM i j
                 ((heap a).m 0 j * (heap b).m i 0 +
                  (heap a).m 1 j * (heap b).m i 1 +
                  (heap a).m 2 j * (heap b).m i 2 +
                  (heap a).m 3 j * (heap b).m i 3))
             temp)
         temp) := by
  induction l generalizing temp with
  | nil => rfl
  | cons j rest ih =>
    simp only [List.foldl_cons]
    rw [MatrixMultiplyAt_inner]
    exact ih _

/-- The loop of `MatrixMultiplyAt` never writes to storage, and fills `temp` with the
product of the matrices at `a` and `b`. -/
theorem MatrixMultiplyAt_eq [Add α] [Mul α] (temp : Matrix α) (heap : Heap α)
    (result a b : Nat) :
    MatrixMultiplyAt temp heap result a b =
      Function.update heap result (MatrixMultiply temp (heap result) (heap a) (heap b)) := by
  unfold MatrixMultiplyAt
  rw [MatrixMultiplyAt_outer]
  rfl

/-- C13: `MatrixMultiply(result, a, b)` on storage, for any addresses `result`, `a`, `b`
(so also when `result` is `a`, is `b`, or is both), leaves at `result` the matrix the
product formula gives for the values the operands had before the call, leaves every
other address as it was, and agrees with the pure function `MatrixMultiply`. -/
theorem C13_MatrixMultiply_aliasing [Semiring α] (temp : Matrix α) (heap : Heap α)
    (result a b : Nat) :
    (MatrixMultiplyAt temp heap result a b) result = Multiply_spec (heap a) (heap b) ∧
    (MatrixMultiplyAt temp heap a a b) a = Multiply_spec (heap a) (heap b) ∧
    (MatrixMultiplyAt temp heap b a b) b = Multiply_spec (heap a) (heap b) ∧
    (MatrixMultiplyAt temp heap a a a) a = Multiply_spec (heap a) (heap a) ∧
    (∀ x, x ≠ result → (MatrixMultiplyAt temp heap result a b) x = heap x) ∧
    (MatrixMultiplyAt temp heap result a b) result =
      MatrixMultiply temp (heap result) (heap a) (heap b) := by
  have key : ∀ (r x y : Nat),
      (MatrixMultiplyAt temp heap r x y) r = Multiply_spec (heap x) (heap y) := by
    intro r x y
    rw [MatrixMultiplyAt_eq, Function.update_same, MatrixMultiply_entries]
    simp only [Multiply_spec, Matrix.ofFn, Fin.sum_univ_four]
    rfl
  refine ⟨key _ _ _, key _ _ _, key _ _ _, key _ _ _, ?_, ?_⟩
  · intro x hx
    rw [MatrixMultiplyAt_eq, Function.update_noteq hx]
  · rw [MatrixMultiplyAt_eq, Function.update_same]

/-- The product of two affine matrices is affine. -/
theorem MatrixMultiply_affine [Semiring α] (temp result a b : Matrix α)
    (ha : a.affine) (hb : b.affine) : (MatrixMultiply temp result a b).affine := by
  obtain ⟨a1, a2, a3, a4⟩ := ha
  obtain ⟨b1, b2, b3, b4⟩ := hb
  rw [MatrixMultiply_entries]
  simp [Matrix.affine, a1, a2, a3, a4, b1, b2, b3, b4]

/-- C14 (amended): the matrices built by `SetMatrix`, `SetMatrixIdentity` and
`SetMatrixRotation` have last column `(0, 0, 0, 1)` whatever their arguments are (in
any number type `β`, so also for infinite or NaN arguments); with entries taken as
exact numbers (a ring `α`), if `a` and `b` have that last column, so has the result of
`MatrixMultiply(result, a, b)`, and hence so has every transform composed from the
constructors by any number of multiplications. -/
theorem C14_affine_closure {β : Type} [Zero β] [One β] [Neg β] [Ring α]
    (sinf cosf : α → α) (sinfβ cosfβ : β → β) :
    (∀ (prior : Matrix β) (tx ty sx sy : β), (SetMatrix prior tx ty sx sy).affine) ∧
    (∀ prior : Matrix β, (SetMatrixIdentity prior).affine) ∧
    (∀ (prior : Matrix β) (radians : β),
      (SetMatrixRotation sinfβ cosfβ prior radians).affine) ∧
    (∀ temp result a b : Matrix α,
      a.affine → b.affine → (MatrixMultiply temp result a b).affine) ∧
    (∀ (scratch : Matrix α) (e : TransformExpr α), (e.eval sinf cosf scratch).affine) := by
  refine ⟨fun _ _ _ _ _ => ⟨rfl, rfl, rfl, rfl⟩, fun _ => ⟨rfl, rfl, rfl, rfl⟩,
    fun _ _ => ⟨rfl, rfl, rfl, rfl⟩,
    fun t r a b ha hb => MatrixMultiply_affine t r a b ha hb, ?_⟩
  intro scratch e
  induction e with
  | setMatrix tx ty sx sy => exact ⟨rfl, rfl, rfl, rfl⟩
  | identity => exact ⟨rfl, rfl, rfl, rfl⟩
  | rotation radians => exact ⟨rfl, rfl, rfl, rfl⟩
  | multiply a b iha ihb => exact MatrixMultiply_affine _ _ _ _ iha ihb

/-- C14 on integer matrices: a scale-and-translate matrix and a quarter-turn are affine,
and so is their product. -/
theorem C14_affine_closure_witness :
    (SetMatrix (Matrix.fill (0 : ℤ)) 5 7 2 3).affine ∧
    (SetMatrixRotation (fun _ => (1 : ℤ)) (fun _ => 0) (Matrix.fill 0) 0).affine ∧
    (MatrixMultiply (Matrix.fill 9) (Matrix.fill 9)
      (SetMatrix (Matrix.fill (0 : ℤ)) 5 7 2 3)
      (SetMatrixRotation (fun _ => (1 : ℤ)) (fun _ => 0) (Matrix.fill 0) 0)).affine :=
  ⟨by decide, by decide,
    (C14_affine_closure (fun _ => (1 : ℤ)) (fun _ => 0)
      (fun x : XFloat => x) (fun x : XFloat => x)).2.2.2.1 _ _ _ _
      (by decide) (by decide)⟩

/-- C14 (as stated, refuted): in `float` arithmetic with its infinities, the identity
matrix and `SetMatrix(0, 0, +inf, 1)` are both affine, and `MatrixMultiply` of the two
has `_14 = 0 * inf + 0 * 0 + 0 * 0 + 1 * 0 = NaN`, so the product is not affine. -/
theorem C14_affine_not_closed_with_infinity :
    (SetMatrixIdentity (Matrix.fill (0 : XFloat))).affine ∧
    (SetMatrix (Matrix.fill (0 : XFloat)) 0 0 XFloat.pinf 1).affine ∧
    (MatrixMultiply (Matrix.fill 0) (Matrix.fill 0)
      (SetMatrixIdentity (Matrix.fill (0 : XFloat)))
      (SetMatrix (Matrix.fill (0 : XFloat)) 0 0 XFloat.pinf 1))._14 = XFloat.nan ∧
    ¬ (MatrixMultiply (Matrix.fill 0) (Matrix.fill 0)
      (SetMatrixIdentity (Matrix.fill (0 : XFloat)))
      (SetMatrix (Matrix.fill (0 : XFloat)) 0 0 XFloat.pinf 1)).affine := by
  decide

/-- C15: `MatrixMultiply(MatrixMultiply(a, b), c)` equals
`MatrixMultiply(a, MatrixMultiply(b, c))` for all matrices over a semiring of exact
numbers, whatever the scratch storage of the four calls held. -/
theorem C15_MatrixMultiply_assoc [Semiring α] (t1 r1 t2 r2 t3 r3 t4 r4 a b c : Matrix α) :
    MatrixMultiply t1 r1 (MatrixMultiply t2 r2 a b) c =
      MatrixMultiply t3 r3 a (MatrixMultiply t4 r4 b c) := by
  rw [MatrixMultiply_entries, MatrixMultiply_entries, MatrixMultiply_entries,
    MatrixMultiply_entries]
  simp only [Matrix.mk.injEq, add_mul, mul_add, mul_assoc]
  refine ⟨?_, ?_, ?_, ?_, ?_, ?_, ?_, ?_, ?_, ?_, ?_, ?_, ?_, ?_, ?_, ?_⟩ <;> abel

/-! ## Theorems: the frame schedule -/

theorem renderAllStages_append (l1 l2 : List Effect) :
    renderAllStages (l1 ++ l2) = renderAllStages l1 ++ renderAllStages l2 := by
  induction l1 with
  | nil => rfl
  | cons e rest ih => cases e <;> simp [renderAllStages, ih]

theorem renderAllStages_map (l : List BaseObject) :
    renderAllStages (l.map Effect.ObjectRender) = [] := by
  induction l with
  | nil => rfl
  | cons o rest ih => simp [renderAllStages, ih]

/-- The log one stage appends: matrices refreshed, `RenderAll(stage)`, then the batch
objects of that stage. -/
theorem stageLog_facts (f : RenderFactory) (v : Bool) (stage : RenderStage)
    (batch : List BaseObject) :
    Effect.UpdateAll ∉
      ([Effect.SetScreenMatrixes f v, Effect.RenderAll stage] ++
        (batch.filter (fun o => o.renderStage = stage)).map Effect.ObjectRender) ∧
    renderAllStages
      ([Effect.SetScreenMatrixes f v, Effect.RenderAll stage] ++
        (batch.filter (fun o => o.renderStage = stage)).map Effect.ObjectRender) = [stage] := by
  constructor
  · simp
  · rw [renderAllStages_append, renderAllStages_map]
    rfl

/-- C12: with the backend set, `AGS_EngineOnEvent` handles `AGSE_PRERENDER` by calling
`UpdateAll` and nothing else; `AGSE_PRESCREENDRAW` by refreshing the device and
rendering stage Background; `AGSE_PREGUIDRAW`, `AGSE_POSTSCREENDRAW` and
`AGSE_FINALSCREENDRAW` by rendering Scene, Gui and Screen. Rendering a stage is, in
this order, `SetScreenMatrixes`, `RenderAll(stage)`, then `Render()` on the batch
objects of that stage. Over the five events `UpdateAll` is logged once, first, and the
`RenderAll` calls are Background, Scene, Gui, Screen. -/
theorem C12_frame_schedule (p : Plugin) (f : RenderFactory) (d0 d1 d2 d3 d4 : Int)
    (hf : p.factory = some f) :
    ∃ p0 pA pB pC pD : Plugin,
      AGS_EngineOnEvent p Event.AGSE_PRERENDER d0 = some p0 ∧
      AGS_EngineOnEvent p0 Event.AGSE_PRESCREENDRAW d1 = some pA ∧
      AGS_EngineOnEvent pA Event.AGSE_PREGUIDRAW d2 = some pB ∧
      AGS_EngineOnEvent pB Event.AGSE_POSTSCREENDRAW d3 = some pC ∧
      AGS_EngineOnEvent pC Event.AGSE_FINALSCREENDRAW d4 = some pD ∧
      p0.log = p.log ++ [Effect.UpdateAll] ∧
      pA.log = p0.log ++
        (Effect.InitGfxDevice f d1 ::
          ([Effect.SetScreenMatrixes f (decide (p.engine.version ≥ 25)),
            Effect.RenderAll RenderStage.STAGE_BACKGROUND] ++
          (p.manualRenderBatch.filter
            (fun o => o.renderStage = RenderStage.STAGE_BACKGROUND)).map Effect.ObjectRender)) ∧
      pB.log = pA.log ++
        ([Effect.SetScreenMatrixes f (decide (p.engine.version ≥ 25)),
            Effect.RenderAll RenderStage.STAGE_SCENE] ++
          (p.manualRenderBatch.filter
            (fun o => o.renderStage = RenderStage.STAGE_SCENE)).map Effect.ObjectRender) ∧
      pC.log = pB.log ++
        ([Effect.SetScreenMatrixes f (decide (p.engine.version ≥ 25)),
            Effect.RenderAll RenderStage.STAGE_GUI] ++
          (p.manualRenderBatch.filter
            (fun o => o.renderStage = RenderStage.STAGE_GUI)).map Effect.ObjectRender) ∧
      pD.log = pC.log ++
        ([Effect.SetScreenMatrixes f (decide (p.engine.version ≥ 25)),
            Effect.RenderAll RenderStage.STAGE_SCREEN] ++
          (p.manualRenderBatch.filter
            (fun o => o.renderStage = RenderStage.STAGE_SCREEN)).map Effect.ObjectRender) ∧
      (∃ frame : List Effect,
        pD.log = p.log ++ Effect.UpdateAll :: frame ∧
        Effect.UpdateAll ∉ frame ∧
        (Effect.UpdateAll :: frame).count Effect.UpdateAll = 1 ∧
        renderAllStages (Effect.UpdateAll :: frame) =
          [RenderStage.STAGE_BACKGROUND, RenderStage.STAGE_SCENE,
            RenderStage.STAGE_GUI, RenderStage.STAGE_SCREEN]) := by
  obtain ⟨pA, eA, fA, bA, gA, lA⟩ :=
    prescreendraw_event_eq { p with log := p.log ++ [Effect.UpdateAll] } f d1 hf
  obtain ⟨pB, eB, fB, bB, gB, lB⟩ :=
    stage_event_eq pA f Event.AGSE_PREGUIDRAW RenderStage.STAGE_SCENE d2 fA (Or.inl ⟨rfl, rfl⟩)
  obtain ⟨pC, eC, fC, bC, gC, lC⟩ :=
    stage_event_eq pB f Event.AGSE_POSTSCREENDRAW RenderStage.STAGE_GUI d3 fB (Or.inr ⟨rfl, rfl⟩)
  obtain ⟨pD, eD, _, _, _, lD⟩ := finalscreendraw_event_eq pC f d4 fC
  have gA2 : pA.engine = p.engine := gA
  have gB2 : pB.engine = p.engine := gB.trans gA2
  have gC2 : pC.engine = p.engine := gC.trans gB2
  have bA2 : pA.manualRenderBatch = p.manualRenderBatch := bA
  have bB2 : pB.manualRenderBatch = p.manualRenderBatch := bB.trans bA2
  have bC2 : pC.manualRenderBatch = p.manualRenderBatch := bC.trans bB2
  rw [gA2, bA2] at lB
  rw [gB2, bB2] at lC
  rw [gC2, bC2] at lD
  rw [List.append_assoc] at lA lB lC lD
  have lA2 : pA.log = (p.log ++ [Effect.UpdateAll]) ++
      (Effect.InitGfxDevice f d1 ::
        ([Effect.SetScreenMatrixes f (decide (p.engine.version ≥ 25)),
          Effect.RenderAll RenderStage.STAGE_BACKGROUND] ++
        (p.manualRenderBatch.filter
          (fun o => o.renderStage = RenderStage.STAGE_BACKGROUND)).map Effect.ObjectRender)) := by
    rw [lA]; rfl
  obtain ⟨nA, sA⟩ := stageLog_facts f (decide (p.engine.version ≥ 25))
    RenderStage.STAGE_BACKGROUND p.manualRenderBatch
  obtain ⟨nB, sB⟩ := stageLog_facts f (decide (p.engine.version ≥ 25))
    RenderStage.STAGE_SCENE p.manualRenderBatch
  obtain ⟨nC, sC⟩ := stageLog_facts f (decide (p.engine.version ≥ 25))
    RenderStage.STAGE_GUI p.manualRenderBatch
  obtain ⟨nD, sD⟩ := stageLog_facts f (decide (p.engine.version ≥ 25))
    RenderStage.STAGE_SCREEN p.manualRenderBatch
  generalize
    ([Effect.SetScreenMatrixes f (decide (p.engine.version ≥ 25)),
        Effect.RenderAll RenderStage.STAGE_BACKGROUND] ++
      (p.manualRenderBatch.filter
        (fun o => o.renderStage = RenderStage.STAGE_BACKGROUND)).map Effect.ObjectRender) = cA
    at lA2 nA sA ⊢
  generalize
    ([Effect.SetScreenMatrixes f (decide (p.engine.version ≥ 25)),
        Effect.RenderAll RenderStage.STAGE_SCENE] ++
      (p.manualRenderBatch.filter
        (fun o => o.renderStage = RenderStage.STAGE_SCENE)).map Effect.ObjectRender) = cB
    at lB nB sB ⊢
  generalize
    ([Effect.SetScreenMatrixes f (decide (p.engine.version ≥ 25)),
        Effect.RenderAll RenderStage.STAGE_GUI] ++
      (p.manualRenderBatch.filter
        (fun o => o.renderStage = RenderStage.STAGE_GUI)).map Effect.ObjectRender) = cC
    at lC nC sC ⊢
  generalize
    ([Effect.SetScreenMatrixes f (decide (p.engine.version ≥ 25)),
        Effect.RenderAll RenderStage.STAGE_SCREEN] ++
      (p.manualRenderBatch.filter
        (fun o => o.renderStage = RenderStage.STAGE_SCREEN)).map Effect.ObjectRender) = cD
    at lD nD sD ⊢
  have hnot : Effect.UpdateAll ∉ Effect.InitGfxDevice f d1 :: (cA ++ (cB ++ (cC ++ cD))) := by
    simp [nA, nB, nC, nD]
  refine ⟨{ p with log := p.log ++ [Effect.UpdateAll] }, pA, pB, pC, pD,
    rfl, eA, eB, eC, eD, rfl, lA2, lB, lC, lD,
    ⟨Effect.InitGfxDevice f d1 :: (cA ++ (cB ++ (cC ++ cD))), ?_, hnot, ?_, ?_⟩⟩
  · rw [lD, lC, lB, lA2]
    simp only [List.append_assoc, List.singleton_append, List.cons_append, List.nil_append]
  · rw [List.count_cons_self, List.count_eq_zero_of_not_mem hnot]
  · simp [renderAllStages, renderAllStages_append, sA, sB, sC, sD]

/-- C12 on a version 25 host with the OpenGL backend, A queued for Scene and B for Gui:
the log of the frame is `UpdateAll`, the device refresh, then for each stage in the
order Background, Scene, Gui, Screen the matrices, `RenderAll` and the batch objects
of that stage. -/
theorem C12_frame_schedule_witness :
    ([objectA, objectB].foldl D3DObject_Render Plugin.ready).factory =
      some RenderFactory.OGLFactory ∧
    ∃ p0 pA pB pC pD : Plugin,
      AGS_EngineOnEvent ([objectA, objectB].foldl D3DObject_Render Plugin.ready)
        Event.AGSE_PRERENDER 0 = some p0 ∧
      AGS_EngineOnEvent p0 Event.AGSE_PRESCREENDRAW 0 = some pA ∧
      AGS_EngineOnEvent pA Event.AGSE_PREGUIDRAW 0 = some pB ∧
      AGS_EngineOnEvent pB Event.AGSE_POSTSCREENDRAW 0 = some pC ∧
      AGS_EngineOnEvent pC Event.AGSE_FINALSCREENDRAW 0 = some pD ∧
      pD.log =
        [Effect.UpdateAll,
         Effect.InitGfxDevice RenderFactory.OGLFactory 0,
         Effect.SetScreenMatrixes RenderFactory.OGLFactory true,
         Effect.RenderAll RenderStage.STAGE_BACKGROUND,
         Effect.SetScreenMatrixes RenderFactory.OGLFactory true,
         Effect.RenderAll RenderStage.STAGE_SCENE,
         Effect.ObjectRender objectA,
         Effect.SetScreenMatrixes RenderFactory.OGLFactory true,
         Effect.RenderAll RenderStage.STAGE_GUI,
         Effect.ObjectRender objectB,
         Effect.SetScreenMatrixes RenderFactory.OGLFactory true,
         Effect.RenderAll RenderStage.STAGE_SCREEN] := by
  refine ⟨rfl, ?_⟩
  obtain ⟨p0, pA, pB, pC, pD, e0, eA, eB, eC, eD, l0, lA, lB, lC, lD, _⟩ :=
    C12_frame_schedule ([objectA, objectB].foldl D3DObject_Render Plugin.ready)
      RenderFactory.OGLFactory 0 0 0 0 0 rfl
  refine ⟨p0, pA, pB, pC, pD, e0, eA, eB, eC, eD, ?_⟩
  rw [lD, lC, lB, lA, l0]
  decide

end Sprite3D
